import Mathlib

/-!
Verification development for the orcinus repository (a Tk questionnaire GUI
that generates ORCA quantum-chemistry input files).

The definitions below are a shallow embedding of the Python sources:
  * `ORCAInput`, `getitem`, `generate`  — src/orcinus/__init__.py
  * `Field`, `emitValue`                — Questionnaire.get_values,
                                          src/orcinus/gui/questionnaire.py
  * `inferType`, `inferDefault`         — Questionnaire.create_widgets,
                                          src/orcinus/gui/questionnaire.py
  * `Answers`, `getValues`, `updateWidgets` and their helpers
                                        — InputGUI.update_widgets,
                                          src/orcinus/gui/__init__.py
Python `None` is modelled by `Option.none`; machine strings by `String`;
the floating-point spinbox values by `Rat` (the schema rounds them to two
decimal digits, so they are exact decimals).
-/

namespace Orcinus

/-- A single item held in a section of an `ORCAInput` document.  Items are the
Python values appended by `InputGUI.update_widgets`; integers are rendered to
their decimal string at append time because `generate` only ever applies
`str` to them. `none` is Python `None`. -/
abbrev Item := Option String

/-- Python `str(x)` for an optional string (`str(None) = "None"`). -/
def pyStrOpt : Item → String
  | none => "None"
  | some s => s

/-- The ordered mapping backing `ORCAInput._mapping` (insertion order of keys
is the association-list order, as for a Python `dict`). -/
abbrev ORCAInput := List (String × List Item)

/-- Dictionary lookup in `ORCAInput._mapping` (no mutation). -/
def lookupKey (m : ORCAInput) (k : String) : Option (List Item) :=
  match m.find? (fun p => p.1 == k) with
  | some p => some p.2
  | none => none

/-- `ORCAInput.__getitem__`: a read inserts the key with a fresh empty list
when it is absent, and returns the stored list together with the (possibly
enlarged) mapping. -/
def getitem (m : ORCAInput) (k : String) : List Item × ORCAInput :=
  match lookupKey m k with
  | some v => (v, m)
  | none => ([], m ++ [(k, [])])

/-- Keys of the mapping in iteration (insertion) order. -/
def keysOf (m : ORCAInput) : List String := m.map Prod.fst

/-- The special keys of `generate`: `inliners = ["!", "maxcore", "*"]`. -/
def inliners : List String := ["!", "maxcore", "*"]

/-- `' '.join(str(v) for v in xs if v is not None)`. -/
def joinNonNull (xs : List Item) : String :=
  String.intercalate " " (xs.filterMap id)

/-- The tag printed in front of an inline section
(`"*" ↦ "\n*"`, `"maxcore" ↦ "%maxcore"`, `"!" ↦ "!"`). -/
def inlinerTag (k : String) : String :=
  if k == "*" then "\n*" else if k == "maxcore" then "%" ++ k else k

/-- The body of the named-section loop of `ORCAInput.generate` for one
`(key, value)` pair: the pair is skipped when `set(value) == {None}`
(a nonempty list of only `None`s) or the key is an inline key or `"#"`;
otherwise a `%key` header, one line per non-null item, and `end` are
emitted. -/
def sectionBlock (k : String) (v : List Item) : List String :=
  if (v ≠ [] ∧ v.all (fun i => i == none)) ∨ k ∈ inliners ∨ k == "#" then []
  else ("\n%" ++ k) :: v.filterMap (fun i => i.map (fun s => " " ++ s)) ++ ["end"]

/-- The list of lines built by `ORCAInput.generate`, together with the
mapping after the implicit `__getitem__` insertions it performs. -/
def generateLines (m : ORCAInput) : List String × ORCAInput :=
  let (hash, m1) := getitem m "#"
  let cLines := hash.map (fun i => "# " ++ pyStrOpt i)
  let (bang, m2) := getitem m1 "!"
  let (mx, m3) := getitem m2 "maxcore"
  let (star, m4) := getitem m3 "*"
  let iLines := [inlinerTag "!" ++ " " ++ joinNonNull bang,
                 inlinerTag "maxcore" ++ " " ++ joinNonNull mx,
                 inlinerTag "*" ++ " " ++ joinNonNull star]
  let sLines := m4.flatMap (fun p => sectionBlock p.1 p.2)
  (cLines ++ iLines ++ sLines, m4)

/-- `ORCAInput.generate`: the joined text and the mapping after the call. -/
def generate (m : ORCAInput) : String × ORCAInput :=
  let (ls, m4) := generateLines m
  (String.intercalate "\n" ls, m4)

/-! ### Field schema: values, kinds and inference (Questionnaire.create_widgets) -/

/-- A runtime value of a questionnaire field (`int`, `bool`, `str`, `float`).
Floats are modelled by rationals: every literal in the schema is a decimal
rounded to two digits. -/
inductive Value where
  | vInt : Int → Value
  | vBool : Bool → Value
  | vStr : String → Value
  | vRat : Rat → Value
deriving DecidableEq

/-- The four kinds a field may have (`int`, `bool`, `str`, `float`). -/
inductive Kind where
  | kInt | kBool | kStr | kFloat
deriving DecidableEq

/-- Python `type(v)` restricted to the four kinds. -/
def typeOf : Value → Kind
  | .vInt _ => .kInt
  | .vBool _ => .kBool
  | .vStr _ => .kStr
  | .vRat _ => .kFloat

/-- `kind()` — the zero value of a kind (`int() = 0`, `bool() = False`,
`str() = ""`, `float() = 0.0`). -/
def kindZero : Kind → Value
  | .kInt => .vInt 0
  | .kBool => .vBool false
  | .kStr => .vStr ""
  | .kFloat => .vRat 0

/-- A field descriptor as seen by `create_widgets`: `ty` is the `"type"` key
(absent = `none`); `defaultVal` is the `"default"` key, where the outer
option records presence of the key and the inner one a possibly-`None`
value; `values` is the `"values"` key materialised as an ordered list of
possibly-`None` entries (`list(desc["values"])`). -/
structure Descriptor where
  ty : Option Kind
  defaultVal : Option (Option Value)
  values : Option (List (Option Value))
deriving DecidableEq

/-- First non-null entry of a domain:
`[v for v in values if v is not None][0]` (when it exists). -/
def firstNonNull (vs : List (Option Value)) : Option Value :=
  (vs.filterMap id).head?

/-- Errors raised during type inference: the `ValueError` carrying the
offending descriptor, and the `IndexError` from indexing into an empty
filtered list. -/
inductive InferErr where
  | cannotInferType : Descriptor → InferErr
  | indexError : InferErr
deriving DecidableEq

/-- Kind resolution of `create_widgets` (lines 195–207 of
src/orcinus/gui/questionnaire.py): explicit `"type"`; else the runtime type
of a present non-`None` default; else the type of the first non-null domain
entry (an `IndexError` when the domain is all-null); else
`ValueError(f"could not infer type, please specify: {desc}")`. -/
def inferType (d : Descriptor) : Except InferErr Kind :=
  match d.ty with
  | some k => .ok k
  | none =>
    match d.defaultVal with
    | some (some v) => .ok (typeOf v)
    | _ =>
      match d.values with
      | some vs =>
        match firstNonNull vs with
        | some v => .ok (typeOf v)
        | none => .error .indexError
      | none => .error (.cannotInferType d)

/-- Default resolution of `create_widgets` (lines 209–219): keep a present
`"default"` (even when it is `None`); else the literal first domain entry
`[v for v in values][0]` (even when `None`; an `IndexError` on an empty
domain); else `kind()` for the kind `k` resolved just before.  The result's
outer option is the error monad (`none` = raised). -/
def inferDefault (d : Descriptor) (k : Kind) : Option (Option Value) :=
  match d.defaultVal with
  | some dv => some dv
  | none =>
    match d.values with
    | some [] => none
    | some (v :: _) => some v
    | none => some (some (kindZero k))

/-! ### Questionnaire.get_values (src/orcinus/gui/questionnaire.py, 49–77) -/

/-- One field at the time `get_values` runs: its derived `visible` flag,
whether `variable.get()` succeeds (`getOk = false` models `TclError`), the
raw value the variable holds, the descriptor's `default`, and the optional
`values` dict (an association list from display value to emitted value). -/
structure Field where
  visible : Bool
  getOk : Bool
  raw : Option Value
  fieldDefault : Option Value
  translator : Option (List (Option Value × Option Value))
deriving DecidableEq

/-- The `if values[name] == "None": values[name] = None` scrub. -/
def scrubNone (v : Option Value) : Option Value :=
  if v == some (.vStr "None") then none else v

/-- Python dict lookup in a `values` translation table. -/
def dlookup (tr : List (Option Value × Option Value)) (k : Option Value) :
    Option (Option Value) :=
  match tr.find? (fun p => p.1 == k) with
  | some p => some p.2
  | none => none

/-- The body of the `get_values` loop for one field: invisible fields emit
`None` unconditionally; otherwise the raw value (or the default on
`TclError`) is scrubbed, translated through the `values` dict when one
exists — a missed lookup falls back to the default's translation, and a
miss there raises `KeyError` (`.error`) — and scrubbed again. -/
def emitValue (f : Field) : Except Unit (Option Value) :=
  if f.visible = false then .ok none
  else
    let v0 := if f.getOk then f.raw else f.fieldDefault
    let v1 := scrubNone v0
    match f.translator with
    | none => .ok (scrubNone v1)
    | some tr =>
      match dlookup tr v1 with
      | some w => .ok (scrubNone w)
      | none =>
        match dlookup tr f.fieldDefault with
        | some w => .ok (scrubNone w)
        | none => .error ()

/-! ### The InputGUI schema: stored answers (src/orcinus/gui/__init__.py, 86–1157)

An `Answers` record holds the raw value stored in each Tk variable that
`InputGUI.update_widgets` reads (the `options` dict of
`Questionnaire.update_widgets`).  Field types follow the variable classes
chosen by `create_widgets`: `IntVar ↦ Int`, `BooleanVar ↦ Bool`,
`StringVar ↦ String`, `DoubleVar ↦ Rat`.  Fields whose domain contains
`None` are `StringVar`s, so a stored `None` appears as the string
`"None"`. -/

structure Answers where
  shortDescription : String
  task : String
  charge : Int
  spin : Int
  unrestricted : Bool
  uco : Bool
  theory : String
  frozenCore : Bool
  triplesCorrection : Bool
  dftbHamiltonian : String
  dftFamily : String
  dftLda : String
  dftGga : String
  dftHybrid : String
  dftMetaGga : String
  dftMetaHybrid : String
  dftRsHybrid : String
  dftDoubleHybrid : String
  dftRsDoubleHybrid : String
  dispersion : String
  basisFamily : String
  basisDef2 : String
  basisCc : String
  basisPople : String
  numericalQuality : String
  dlpno : Bool
  ri : Bool
  riHf : String
  nprocs : Int
  memory : Int
  solvation : Bool
  solvationModel : String
  solvationCpcm : String
  solvationSmd : String
  solvationGbsa : String
  relativity : String
  outputLevel : String
  outputMos : Bool
  outputBasis : Bool
  nbo : Bool
  scfMaxiter : String
  geomStep : String
  geomTrust : Rat
  geomUpdateTrust : Bool
  geomMaxiter : Int
  geomTight : Bool
  initialHessian : String
  freqRestart : Bool
  freqScaling : Rat
  excitedStates : Bool
  excitedStatesMethod : String
  tddftNroots : Int
  tddftTda : Bool
  tddftNto : Bool
  tddftMaxdim : Int

/-- Whether `p` occurs as a contiguous run inside `l`. -/
def infixAux (p : List Char) : List Char → Bool
  | [] => p.isEmpty
  | c :: t => List.isPrefixOf p (c :: t) || infixAux p t

/-- Python `needle in hay` on strings. -/
def pyIn (needle hay : String) : Bool :=
  infixAux needle.toList hay.toList

/-- Python `str.lower` (character-wise, as for the schema's ASCII keys). -/
def pyLower (s : String) : String :=
  ⟨s.data.map Char.toLower⟩

/-- Replace every (non-overlapping, left-to-right) occurrence of `pat` by
`rep`, fuelled by the input length; `Python str.replace` for a nonempty
pattern. -/
def replaceFuel (pat rep : List Char) : Nat → List Char → List Char
  | 0, l => l
  | _ + 1, [] => []
  | fuel + 1, c :: cs =>
    if !pat.isEmpty && pat.isPrefixOf (c :: cs) then
      rep ++ replaceFuel pat rep fuel ((c :: cs).drop pat.length)
    else c :: replaceFuel pat rep fuel cs

/-- Python `s.replace(pat, rep)` for a nonempty pattern. -/
def pyReplace (s pat rep : String) : String :=
  ⟨replaceFuel pat.data rep.data s.data.length s.data⟩

/-! Display domains of the schema's fields, as declared in `create_widgets`
of `InputGUI` (keys of dict domains, entries of list domains; `None`
entries of `StringVar` domains appear as the string `"None"`). -/

def taskKeys : List String :=
  ["Energy", "Opt", "Freq", "Opt+Freq", "OptTS", "OptTS+Freq", "IRC",
   "OptTS+Freq+IRC", "NEB", "NEB+Freq", "NEB+Freq+IRC"]

def theoryKeys : List String := ["MM", "HF", "DFTB", "DFT", "MP2", "CCSD"]

def dftbHamiltonianKeys : List String := ["GFN1-xTB", "GFN2-xTB"]

def dftFamilyKeys : List String :=
  ["LDA", "GGA", "meta-GGA", "Hybrid", "RS-Hybrid", "meta-Hybrid",
   "Double-Hybrid", "RS-Double-Hybrid"]

def dftLdaKeys : List String := ["HFS", "VWN5", "VWN3", "PWLDA"]

def dftGgaKeys : List String :=
  ["BP86", "BLYP", "OLYP", "GLYP", "XLYP", "PW91", "mPWPW", "mPWLYP", "PBE",
   "rPBE", "revPBE", "PWP"]

def dftHybridKeys : List String :=
  ["B1LYP", "B3LYP", "B3LYP/G", "O3LYP", "X3LYP", "B1P", "B3P", "B3PW",
   "PW1PW", "mPW1PW", "mPW1LYP", "PBE0", "PW6B95", "BHandHLYP"]

def dftMetaGgaKeys : List String :=
  ["TPSS", "M06L", "B97M-V", "B97M-D3BJ", "SCANfunc"]

def dftMetaHybridKeys : List String := ["TPSSh", "TPSS0", "M06", "M062X"]

def dftRsHybridKeys : List String :=
  ["wB97", "wB97X", "wB97X-D3", "wB97X-V", "wB97X-D3BJ", "wB97M-V",
   "wB97M-D3BJ", "CAM-B3LYPLC-BLYP"]

def dftDoubleHybridKeys : List String :=
  ["B2PLYP", "B2PLYP-D", "B2PLYP-D3", "mPW2PLYP", "mPW2PLYP-D", "B2GP-PLYP",
   "B2K-PLYP", "B2T-PLYP", "PWPB95", "DSD-BLYP", "DSD-PBEP86", "DSD-PBEB95"]

def dftRsDoubleHybridKeys : List String := ["wB2PLYP", "wB2GP-PLYP"]

def dispersionKeys : List String := ["None", "D2", "D3Zero", "D3BJ", "D4"]

def basisFamilyKeys : List String := ["def2", "cc", "Pople"]

def basisDef2Keys : List String :=
  ["DZ(P)", "DZ(P)D", "DZP", "DZPD", "TZP(-f)", "TZP(-f)D", "TZP", "TZPD",
   "TZPP", "TZPPD", "QZP", "QZPP", "QZPPD"]

def basisCcKeys : List String :=
  ["DZP", "DZPD", "TZP", "TZPD", "QZP", "QZPD", "5ZP", "5ZPD", "6ZP", "6ZPD"]

def basisPopleKeys : List String :=
  ["DZ", "DZ(P)", "DZP", "DZP(D)", "DZPD", "TZ", "TZ(P)", "TZP", "TZP(D)",
   "TZPD"]

def numericalQualityKeys : List String :=
  ["Poor", "Fair", "Good", "Very Good", "Excellent", "Extreme"]

def riHfKeys : List String := ["RIJONX", "RIJK", "RIJCOSX"]

def nprocsKeys : List Int := [1, 2, 4, 8, 16, 32]

def solvationModelKeys : List String := ["CPCM", "SMD"]

def solvationCpcmKeys : List String :=
  ["Water", "Dimethyl sulfoxide", "Dimethylformamide", "Acetonitrile",
   "Methanol", "Ethanol", "Ammonia", "Acetone", "Pyridine", "1-Octanol",
   "Dichloromethane", "Tetrahydrofuran", "Chloroform", "Toluene", "Benzene",
   "Tetrachloromethane", "Cyclohexane", "n-Hexane"]

def solvationSmdKeys : List String :=
  ["Water", "Dimethyl sulfoxide", "Dimethylformamide", "Acetonitrile",
   "Nitromethane", "Nitrobenzene", "Methanol", "Ethanol", "Acetone",
   "Pyridine", "1-Octanol", "Dichloromethane", "Tetrahydrofuran",
   "Chloroform", "Diethyl ether", "Carbon disulfide", "Toluene", "Benzene",
   "Tetrachloromethane", "Cyclohexane", "n-Hexane"]

def solvationGbsaKeys : List String :=
  ["Water", "Dimethyl sulfoxide", "Dimethylformamide", "Acetonitrile",
   "Methanol", "Acetone", "Dichloromethane", "Tetrahydrofuran", "Chloroform",
   "Diethyl ether", "Carbon disulfide", "Toluene", "Benzene", "n-Hexane"]

def relativityKeys : List String := ["None", "DKH", "ZORA"]

def outputLevelKeys : List String := ["Mini", "Small", "Normal", "Large"]

def scfMaxiterKeys : List String :=
  ["Auto", "100", "150", "200", "250", "300", "350", "400", "450", "500"]

def geomStepKeys : List String :=
  ["Auto", "Rational function", "partitioned Rational function",
   "quasi-Newton", "GDIIS"]

def geomTrustKeys : List Rat :=
  [⟨1, 10, by decide, by decide⟩, ⟨3, 20, by decide, by decide⟩,
   ⟨1, 5, by decide, by decide⟩, ⟨1, 4, by decide, by decide⟩,
   ⟨3, 10, by decide, by decide⟩, ⟨7, 20, by decide, by decide⟩,
   ⟨2, 5, by decide, by decide⟩, ⟨9, 20, by decide, by decide⟩,
   ⟨1, 2, by decide, by decide⟩]

def initialHessianKeys : List String :=
  ["Read", "Calculate", "Swart", "Lindh", "Almlöf", "Schlegel", "Diagonal"]

def freqScalingKeys : List Rat :=
  [⟨19, 20, by decide, by decide⟩, ⟨24, 25, by decide, by decide⟩,
   ⟨97, 100, by decide, by decide⟩, ⟨49, 50, by decide, by decide⟩,
   ⟨99, 100, by decide, by decide⟩, ⟨1, 1, by decide, by decide⟩,
   ⟨101, 100, by decide, by decide⟩, ⟨51, 50, by decide, by decide⟩,
   ⟨103, 100, by decide, by decide⟩, ⟨26, 25, by decide, by decide⟩,
   ⟨21, 20, by decide, by decide⟩]

def excitedStatesMethodKeys : List String := ["TD-DFT"]

/-- Every stored field value belongs to its declared display domain
(free-text and unconstrained boolean fields excepted). -/
def inDomain (a : Answers) : Bool :=
  a.task ∈ taskKeys &&
  (-100 ≤ a.charge && a.charge ≤ 100) &&
  (1 ≤ a.spin && a.spin ≤ 100) &&
  a.theory ∈ theoryKeys &&
  a.dftbHamiltonian ∈ dftbHamiltonianKeys &&
  a.dftFamily ∈ dftFamilyKeys &&
  a.dftLda ∈ dftLdaKeys &&
  a.dftGga ∈ dftGgaKeys &&
  a.dftHybrid ∈ dftHybridKeys &&
  a.dftMetaGga ∈ dftMetaGgaKeys &&
  a.dftMetaHybrid ∈ dftMetaHybridKeys &&
  a.dftRsHybrid ∈ dftRsHybridKeys &&
  a.dftDoubleHybrid ∈ dftDoubleHybridKeys &&
  a.dftRsDoubleHybrid ∈ dftRsDoubleHybridKeys &&
  a.dispersion ∈ dispersionKeys &&
  a.basisFamily ∈ basisFamilyKeys &&
  a.basisDef2 ∈ basisDef2Keys &&
  a.basisCc ∈ basisCcKeys &&
  a.basisPople ∈ basisPopleKeys &&
  a.numericalQuality ∈ numericalQualityKeys &&
  a.riHf ∈ riHfKeys &&
  a.nprocs ∈ nprocsKeys &&
  (6000 ≤ a.memory && a.memory ≤ 18000 && (a.memory - 6000) % 500 == 0) &&
  a.solvationModel ∈ solvationModelKeys &&
  a.solvationCpcm ∈ solvationCpcmKeys &&
  a.solvationSmd ∈ solvationSmdKeys &&
  a.solvationGbsa ∈ solvationGbsaKeys &&
  a.relativity ∈ relativityKeys &&
  a.outputLevel ∈ outputLevelKeys &&
  a.scfMaxiter ∈ scfMaxiterKeys &&
  a.geomStep ∈ geomStepKeys &&
  a.geomTrust ∈ geomTrustKeys &&
  (30 ≤ a.geomMaxiter && a.geomMaxiter ≤ 300 && a.geomMaxiter % 10 == 0) &&
  a.initialHessian ∈ initialHessianKeys &&
  a.freqScaling ∈ freqScalingKeys &&
  a.excitedStatesMethod ∈ excitedStatesMethodKeys &&
  (1 ≤ a.tddftNroots && a.tddftNroots ≤ 100) &&
  (2 ≤ a.tddftMaxdim && a.tddftMaxdim ≤ 360)

/-! ### Visibility rules: the `"switch"` lambdas of the InputGUI schema.
Each reads the raw `options` snapshot (an `Answers`), exactly as
`Questionnaire.update_widgets` passes it. -/

def visTheory4 (a : Answers) : Bool :=
  a.theory == "HF" || a.theory == "DFT" || a.theory == "MP2" ||
  a.theory == "CCSD"

def visSpin (a : Answers) : Bool := a.unrestricted

def visUco (a : Answers) : Bool := a.unrestricted

def visFrozenCore (a : Answers) : Bool :=
  a.theory == "MP2" || a.theory == "CCSD"

def visTriples (a : Answers) : Bool := a.theory == "CCSD"

def visDftbHamiltonian (a : Answers) : Bool := a.theory == "DFTB"

def visDftFamily (a : Answers) : Bool := a.theory == "DFT"

def visDftFunctional (a : Answers) (fam : String) : Bool :=
  a.theory == "DFT" && a.dftFamily == fam

def visDispersion (a : Answers) : Bool := a.theory == "DFT"

def visBasisFamily (a : Answers) : Bool := visTheory4 a

def visBasisSub (a : Answers) (fam : String) : Bool :=
  a.basisFamily == fam && visTheory4 a

def visNumericalQuality (a : Answers) : Bool := visTheory4 a

def visDlpno (a : Answers) : Bool :=
  (a.theory == "MP2" || a.theory == "CCSD") ||
  (a.theory == "DFT" && pyIn "Double-Hybrid" a.dftFamily)

def visRi (a : Answers) : Bool :=
  a.theory == "HF" ||
  ((a.theory == "MP2" || a.theory == "CCSD") && !a.dlpno) ||
  (a.theory == "DFT" && (pyIn "GGA" a.dftFamily || pyIn "Hybrid" a.dftFamily))

def visRiHf (a : Answers) : Bool :=
  (a.ri || a.dlpno) &&
  ((a.theory == "HF" || a.theory == "MP2" || a.theory == "CCSD") ||
   (a.theory == "DFT" && pyIn "Hybrid" a.dftFamily))

def visSolvationModel (a : Answers) : Bool :=
  a.solvation && a.theory != "DFTB"

def visSolvationCpcm (a : Answers) : Bool :=
  a.solvation && a.theory != "DFTB" && a.solvationModel == "CPCM"

def visSolvationSmd (a : Answers) : Bool :=
  a.solvation && a.theory != "DFTB" && a.solvationModel == "SMD"

def visSolvationGbsa (a : Answers) : Bool :=
  a.solvation && a.theory == "DFTB"

def visRelativity (a : Answers) : Bool := visTheory4 a

def visOpt (a : Answers) : Bool := pyIn "Opt" a.task

def visGeomUpdateTrust (a : Answers) : Bool :=
  pyIn "Opt" a.task && a.geomStep != "quasi-Newton"

def visOutputBasis (a : Answers) : Bool := a.outputLevel != "Large"

def visExcitedStatesMethod (a : Answers) : Bool := a.excitedStates

def visTddft (a : Answers) : Bool :=
  a.excitedStates && a.excitedStatesMethod == "TD-DFT"

/-! ### Per-field translation (the `"values"` dicts), with the
`KeyError → translator[default]` fallback of `get_values` already applied:
a display value outside the dict's keys translates to the image of the
field's default. -/

/-- `task`: `{s: s.replace("+", " ")}` over `taskKeys`; default
`"Opt+Freq"`. -/
def taskTr (s : String) : String :=
  if s ∈ taskKeys then pyReplace s "+" " " else "Opt Freq"

/-- `uco`: `{False: None, True: "UCO"}`. -/
def ucoTr (b : Bool) : Option String :=
  if b then some "UCO" else none

/-- `frozen core`: `{True: None, False: "NoFrozenCore"}`. -/
def frozenCoreTr (b : Bool) : Option String :=
  if b then none else some "NoFrozenCore"

/-- `dftb:hamiltonian`: `{"GFN1-xTB": "XTB1", "GFN2-xTB": "XTB2"}`;
default `"GFN2-xTB"`. -/
def dftbHamiltonianTr (s : String) : String :=
  if s == "GFN1-xTB" then "XTB1" else if s == "GFN2-xTB" then "XTB2"
  else "XTB2"

/-- `dft:family`: `{s: s.lower()}` over `dftFamilyKeys`; default `"GGA"`. -/
def dftFamilyTr (s : String) : String :=
  if s ∈ dftFamilyKeys then pyLower s else "gga"

/-- `basis:family`: `{s: s.lower()}` over `basisFamilyKeys`; inferred
default `"def2"` (the first key). -/
def basisFamilyTr (s : String) : String :=
  if s ∈ basisFamilyKeys then pyLower s else "def2"

/-- `basis:def2` quality dict; default `"TZP"`. -/
def basisDef2Tr (s : String) : String :=
  if s == "DZ(P)" then "def2-SV(P)"
  else if s == "DZ(P)D" then "ma-def2-SV(P)"
  else if s == "DZP" then "def2-SVP"
  else if s == "DZPD" then "ma-def2-SVP"
  else if s == "TZP(-f)" then "def2-TZVP(-f)"
  else if s == "TZP(-f)D" then "ma-def2-TZVP(-f)"
  else if s == "TZP" then "def2-TZVP"
  else if s == "TZPD" then "ma-def2-TZVP"
  else if s == "TZPP" then "def2-TZVPP"
  else if s == "TZPPD" then "ma-def2-TZVPP"
  else if s == "QZP" then "def2-QZVP"
  else if s == "QZPP" then "def2-QZVPP"
  else if s == "QZPPD" then "ma-def2-QZVPP"
  else "def2-TZVP"

/-- `basis:cc` quality dict; default `"TZP"`. -/
def basisCcTr (s : String) : String :=
  if s == "DZP" then "cc-pVDZ"
  else if s == "DZPD" then "aug-cc-pVDZ"
  else if s == "TZP" then "cc-pVTZ"
  else if s == "TZPD" then "aug-cc-pVTZ"
  else if s == "QZP" then "cc-pVQZ"
  else if s == "QZPD" then "aug-cc-pVQZ"
  else if s == "5ZP" then "cc-pV5Z"
  else if s == "5ZPD" then "aug-cc-pV5Z"
  else if s == "6ZP" then "cc-pV6Z"
  else if s == "6ZPD" then "aug-cc-pV6Z"
  else "cc-pVTZ"

/-- `basis:pople` quality dict; default `"TZP"`. -/
def basisPopleTr (s : String) : String :=
  if s == "DZ" then "6-31G"
  else if s == "DZ(P)" then "6-31G(d)"
  else if s == "DZP" then "6-31G(d,p)"
  else if s == "DZP(D)" then "6-31+G(d,p)"
  else if s == "DZPD" then "6-31++G(d,p)"
  else if s == "TZ" then "6-311G"
  else if s == "TZ(P)" then "6-311G(2df)"
  else if s == "TZP" then "6-311G(2df,2pd)"
  else if s == "TZP(D)" then "6-311+G(2df,2pd)"
  else if s == "TZPD" then "6-311++G(2df,2pd)"
  else "6-311G(2df,2pd)"

/-- `numerical:quality`: ordinal dict; default `"Good"` (`1`). -/
def numericalQualityTr (s : String) : Int :=
  if s == "Poor" then -1
  else if s == "Fair" then 0
  else if s == "Good" then 1
  else if s == "Very Good" then 2
  else if s == "Excellent" then 3
  else if s == "Extreme" then 4
  else 1

/-- `ri:hf`: identity dict on its three keys; default `"RIJCOSX"`. -/
def riHfTr (s : String) : String :=
  if s ∈ riHfKeys then s else "RIJCOSX"

/-- `solvation:cpcm` solvent dict; default `"Water"`. -/
def solvationCpcmTr (s : String) : String :=
  if s == "Water" then "Water"
  else if s == "Dimethyl sulfoxide" then "DMSO"
  else if s == "Dimethylformamide" then "DMF"
  else if s == "Acetonitrile" then "Acetonitrile"
  else if s == "Methanol" then "Methanol"
  else if s == "Ethanol" then "Ethanol"
  else if s == "Ammonia" then "Ammonia"
  else if s == "Acetone" then "Acetone"
  else if s == "Pyridine" then "Pyridine"
  else if s == "1-Octanol" then "Octanol"
  else if s == "Dichloromethane" then "CH2Cl2"
  else if s == "Tetrahydrofuran" then "THF"
  else if s == "Chloroform" then "Chloroform"
  else if s == "Toluene" then "Toluene"
  else if s == "Benzene" then "Benzene"
  else if s == "Tetrachloromethane" then "CCl4"
  else if s == "Cyclohexane" then "Cyclohexane"
  else if s == "n-Hexane" then "Hexane"
  else "Water"

/-- `solvation:smd` solvent dict; default `"Water"`. -/
def solvationSmdTr (s : String) : String :=
  if s == "Water" then "Water"
  else if s == "Dimethyl sulfoxide" then "DMSO"
  else if s == "Dimethylformamide" then "DMF"
  else if s == "Acetonitrile" then "Acetonitrile"
  else if s == "Nitromethane" then "Nitromethane"
  else if s == "Nitrobenzene" then "Nitrobenzene"
  else if s == "Methanol" then "Methanol"
  else if s == "Ethanol" then "Ethanol"
  else if s == "Acetone" then "Acetone"
  else if s == "Pyridine" then "Pyridine"
  else if s == "1-Octanol" then "1-Octanol"
  else if s == "Dichloromethane" then "Dichloromethane"
  else if s == "Tetrahydrofuran" then "THF"
  else if s == "Chloroform" then "Chloroform"
  else if s == "Diethyl ether" then "Diethyl ether"
  else if s == "Carbon disulfide" then "Carbon disulfide"
  else if s == "Toluene" then "Toluene"
  else if s == "Benzene" then "Benzene"
  else if s == "Tetrachloromethane" then "CCl4"
  else if s == "Cyclohexane" then "Cyclohexane"
  else if s == "n-Hexane" then "n-Hexane"
  else "Water"

/-- `solvation:gbsa` solvent dict; default `"Water"`. -/
def solvationGbsaTr (s : String) : String :=
  if s == "Water" then "Water"
  else if s == "Dimethyl sulfoxide" then "DMSO"
  else if s == "Dimethylformamide" then "DMF"
  else if s == "Acetonitrile" then "Acetonitrile"
  else if s == "Methanol" then "Methanol"
  else if s == "Acetone" then "Acetone"
  else if s == "Dichloromethane" then "CH2Cl2"
  else if s == "Tetrahydrofuran" then "THF"
  else if s == "Chloroform" then "CHCl3"
  else if s == "Diethyl ether" then "Ether"
  else if s == "Carbon disulfide" then "CS2"
  else if s == "Toluene" then "Toluene"
  else if s == "Benzene" then "Benzene"
  else if s == "n-Hexane" then "n-Hexan"
  else "Water"

/-- `geom:step` dict (`"Auto"` maps to `None`); inferred default `"Auto"`. -/
def geomStepTr (s : String) : Option String :=
  if s == "Auto" then none
  else if s == "Rational function" then some "step rfo"
  else if s == "partitioned Rational function" then some "step prfo"
  else if s == "quasi-Newton" then some "step qn"
  else if s == "GDIIS" then some "step gdiis"
  else none

/-- `initial hessian` dict; default `"Swart"`. -/
def initialHessianTr (s : String) : String :=
  if s == "Read" then "inhess read"
  else if s == "Calculate" then "calc_hess true"
  else if s == "Swart" then "inhess swart"
  else if s == "Lindh" then "inhess lindh"
  else if s == "Almlöf" then "inhess almloef"
  else if s == "Schlegel" then "inhess schlegel"
  else if s == "Diagonal" then "inhess unit"
  else "inhess swart"

/-- `output:level` dict; default `"Small"`. -/
def outputLevelTr (s : String) : String :=
  if s == "Mini" then "MiniPrint"
  else if s == "Small" then "SmallPrint"
  else if s == "Normal" then "NormalPrint"
  else if s == "Large" then "LargePrint"
  else "SmallPrint"

/-- The `values[name] == "None"` scrub for a raw `StringVar` value of a
field without a translation dict. -/
def strScrub (s : String) : Option String :=
  if s == "None" then none else some s

/-! ### Questionnaire.get_values specialised to the InputGUI schema. -/

/-- The dictionary returned by `get_values`: `none` is an invisible field's
(or a scrubbed `"None"`) emitted null, `some` is a translated value. -/
structure Values where
  shortDescription : Option String
  task : Option String
  charge : Option Int
  spin : Option Int
  unrestricted : Option Bool
  uco : Option String
  theory : Option String
  frozenCore : Option String
  triplesCorrection : Option Bool
  dftbHamiltonian : Option String
  dftFamily : Option String
  dftLda : Option String
  dftGga : Option String
  dftHybrid : Option String
  dftMetaGga : Option String
  dftMetaHybrid : Option String
  dftRsHybrid : Option String
  dftDoubleHybrid : Option String
  dftRsDoubleHybrid : Option String
  dispersion : Option String
  basisFamily : Option String
  basisDef2 : Option String
  basisCc : Option String
  basisPople : Option String
  numericalQuality : Option Int
  dlpno : Option Bool
  ri : Option Bool
  riHf : Option String
  nprocs : Option Int
  memory : Option Int
  solvation : Option Bool
  solvationModel : Option String
  solvationCpcm : Option String
  solvationSmd : Option String
  solvationGbsa : Option String
  relativity : Option String
  outputLevel : Option String
  outputMos : Option Bool
  outputBasis : Option Bool
  nbo : Option Bool
  scfMaxiter : Option String
  geomStep : Option String
  geomTrust : Option Rat
  geomUpdateTrust : Option Bool
  geomMaxiter : Option Int
  geomTight : Option Bool
  initialHessian : Option String
  freqRestart : Option Bool
  freqScaling : Option Rat
  excitedStates : Option Bool
  excitedStatesMethod : Option String
  tddftNroots : Option Int
  tddftTda : Option Bool
  tddftNto : Option Bool
  tddftMaxdim : Option Int

/-! `Questionnaire.get_values` for the InputGUI schema, one definition per
field: `none` when the field's derived visibility is off, otherwise the
stored value scrubbed of the string `"None"` and passed through the field's
`values` dict (with the default fallback built into the `…Tr` functions). -/

def gvShortDescription (a : Answers) : Option String :=
  strScrub a.shortDescription

def gvTask (a : Answers) : Option String :=
  some (taskTr a.task)

def gvCharge (a : Answers) : Option Int :=
  some a.charge

def gvSpin (a : Answers) : Option Int :=
  if visSpin a then some a.spin else none

def gvUnrestricted (a : Answers) : Option Bool :=
  some a.unrestricted

def gvUco (a : Answers) : Option String :=
  if visUco a then ucoTr a.uco else none

def gvTheory (a : Answers) : Option String :=
  strScrub a.theory

def gvFrozenCore (a : Answers) : Option String :=
  if visFrozenCore a then frozenCoreTr a.frozenCore else none

def gvTriplesCorrection (a : Answers) : Option Bool :=
  if visTriples a then some a.triplesCorrection else none

def gvDftbHamiltonian (a : Answers) : Option String :=
  if visDftbHamiltonian a then some (dftbHamiltonianTr a.dftbHamiltonian) else none

def gvDftFamily (a : Answers) : Option String :=
  if visDftFamily a then some (dftFamilyTr a.dftFamily) else none

def gvDftLda (a : Answers) : Option String :=
  if visDftFunctional a "LDA" then strScrub a.dftLda else none

def gvDftGga (a : Answers) : Option String :=
  if visDftFunctional a "GGA" then strScrub a.dftGga else none

def gvDftHybrid (a : Answers) : Option String :=
  if visDftFunctional a "Hybrid" then strScrub a.dftHybrid else none

def gvDftMetaGga (a : Answers) : Option String :=
  if visDftFunctional a "meta-GGA" then strScrub a.dftMetaGga else none

def gvDftMetaHybrid (a : Answers) : Option String :=
  if visDftFunctional a "meta-Hybrid" then strScrub a.dftMetaHybrid else none

def gvDftRsHybrid (a : Answers) : Option String :=
  if visDftFunctional a "RS-Hybrid" then strScrub a.dftRsHybrid else none

def gvDftDoubleHybrid (a : Answers) : Option String :=
  if visDftFunctional a "Double-Hybrid" then strScrub a.dftDoubleHybrid else none

def gvDftRsDoubleHybrid (a : Answers) : Option String :=
  if visDftFunctional a "RS-Double-Hybrid" then strScrub a.dftRsDoubleHybrid else none

def gvDispersion (a : Answers) : Option String :=
  if visDispersion a then strScrub a.dispersion else none

def gvBasisFamily (a : Answers) : Option String :=
  if visBasisFamily a then some (basisFamilyTr a.basisFamily) else none

def gvBasisDef2 (a : Answers) : Option String :=
  if visBasisSub a "def2" then some (basisDef2Tr a.basisDef2) else none

def gvBasisCc (a : Answers) : Option String :=
  if visBasisSub a "cc" then some (basisCcTr a.basisCc) else none

def gvBasisPople (a : Answers) : Option String :=
  if visBasisSub a "Pople" then some (basisPopleTr a.basisPople) else none

def gvNumericalQuality (a : Answers) : Option Int :=
  if visNumericalQuality a then some (numericalQualityTr a.numericalQuality) else none

def gvDlpno (a : Answers) : Option Bool :=
  if visDlpno a then some a.dlpno else none

def gvRi (a : Answers) : Option Bool :=
  if visRi a then some a.ri else none

def gvRiHf (a : Answers) : Option String :=
  if visRiHf a then some (riHfTr a.riHf) else none

def gvNprocs (a : Answers) : Option Int :=
  some a.nprocs

def gvMemory (a : Answers) : Option Int :=
  some a.memory

def gvSolvation (a : Answers) : Option Bool :=
  some a.solvation

def gvSolvationModel (a : Answers) : Option String :=
  if visSolvationModel a then strScrub a.solvationModel else none

def gvSolvationCpcm (a : Answers) : Option String :=
  if visSolvationCpcm a then some (solvationCpcmTr a.solvationCpcm) else none

def gvSolvationSmd (a : Answers) : Option String :=
  if visSolvationSmd a then some (solvationSmdTr a.solvationSmd) else none

def gvSolvationGbsa (a : Answers) : Option String :=
  if visSolvationGbsa a then some (solvationGbsaTr a.solvationGbsa) else none

def gvRelativity (a : Answers) : Option String :=
  if visRelativity a then strScrub a.relativity else none

def gvOutputLevel (a : Answers) : Option String :=
  some (outputLevelTr a.outputLevel)

def gvOutputMos (a : Answers) : Option Bool :=
  some a.outputMos

def gvOutputBasis (a : Answers) : Option Bool :=
  if visOutputBasis a then some a.outputBasis else none

def gvNbo (a : Answers) : Option Bool :=
  some a.nbo

def gvScfMaxiter (a : Answers) : Option String :=
  strScrub a.scfMaxiter

def gvGeomStep (a : Answers) : Option String :=
  if visOpt a then geomStepTr a.geomStep else none

def gvGeomTrust (a : Answers) : Option Rat :=
  if visOpt a then some a.geomTrust else none

def gvGeomUpdateTrust (a : Answers) : Option Bool :=
  if visGeomUpdateTrust a then some a.geomUpdateTrust else none

def gvGeomMaxiter (a : Answers) : Option Int :=
  if visOpt a then some a.geomMaxiter else none

def gvGeomTight (a : Answers) : Option Bool :=
  if visOpt a then some a.geomTight else none

def gvInitialHessian (a : Answers) : Option String :=
  if visOpt a then some (initialHessianTr a.initialHessian) else none

def gvFreqRestart (a : Answers) : Option Bool :=
  some a.freqRestart

def gvFreqScaling (a : Answers) : Option Rat :=
  some a.freqScaling

def gvExcitedStates (a : Answers) : Option Bool :=
  some a.excitedStates

def gvExcitedStatesMethod (a : Answers) : Option String :=
  if visExcitedStatesMethod a then strScrub a.excitedStatesMethod else none

def gvTddftNroots (a : Answers) : Option Int :=
  if visTddft a then some a.tddftNroots else none

def gvTddftTda (a : Answers) : Option Bool :=
  if visTddft a then some a.tddftTda else none

def gvTddftNto (a : Answers) : Option Bool :=
  if visTddft a then some a.tddftNto else none

def gvTddftMaxdim (a : Answers) : Option Int :=
  if visTddft a then some a.tddftMaxdim else none

/-- The full dictionary returned by `Questionnaire.get_values`. -/
def getValues (a : Answers) : Values :=
  Values.mk
    (gvShortDescription a)
    (gvTask a)
    (gvCharge a)
    (gvSpin a)
    (gvUnrestricted a)
    (gvUco a)
    (gvTheory a)
    (gvFrozenCore a)
    (gvTriplesCorrection a)
    (gvDftbHamiltonian a)
    (gvDftFamily a)
    (gvDftLda a)
    (gvDftGga a)
    (gvDftHybrid a)
    (gvDftMetaGga a)
    (gvDftMetaHybrid a)
    (gvDftRsHybrid a)
    (gvDftDoubleHybrid a)
    (gvDftRsDoubleHybrid a)
    (gvDispersion a)
    (gvBasisFamily a)
    (gvBasisDef2 a)
    (gvBasisCc a)
    (gvBasisPople a)
    (gvNumericalQuality a)
    (gvDlpno a)
    (gvRi a)
    (gvRiHf a)
    (gvNprocs a)
    (gvMemory a)
    (gvSolvation a)
    (gvSolvationModel a)
    (gvSolvationCpcm a)
    (gvSolvationSmd a)
    (gvSolvationGbsa a)
    (gvRelativity a)
    (gvOutputLevel a)
    (gvOutputMos a)
    (gvOutputBasis a)
    (gvNbo a)
    (gvScfMaxiter a)
    (gvGeomStep a)
    (gvGeomTrust a)
    (gvGeomUpdateTrust a)
    (gvGeomMaxiter a)
    (gvGeomTight a)
    (gvInitialHessian a)
    (gvFreqRestart a)
    (gvFreqScaling a)
    (gvExcitedStates a)
    (gvExcitedStatesMethod a)
    (gvTddftNroots a)
    (gvTddftTda a)
    (gvTddftNto a)
    (gvTddftMaxdim a)

/-! ### InputGUI.update_widgets (src/orcinus/gui/__init__.py, 1183–1449)

The generator is a straight-line program; each fallible step (a Python
expression that can raise `KeyError`/`TypeError`/`AttributeError`/
`ZeroDivisionError`) becomes an `Option`-valued stage, sequenced in source
order by `updateWidgets`; a `none` stage models the exception propagating
out of the handler. -/

/-- Python truthiness of an optional bool. -/
def truthyB : Option Bool → Bool
  | none => false
  | some b => b

/-- Python truthiness of an optional string. -/
def truthyS : Option String → Bool
  | none => false
  | some s => s != ""

/-- Python truthiness of an optional int. -/
def truthyI : Option Int → Bool
  | none => false
  | some n => n != 0

/-- Python truthiness of an optional float. -/
def truthyQ : Option Rat → Bool
  | none => false
  | some q => q != 0

/-- Python `str(x)` for an optional int. -/
def pyStrI : Option Int → String
  | none => "None"
  | some n => toString n

/-- `if not v["spin"]: v["spin"] = 1`: a falsy (null or zero) multiplicity
is coerced to 1 (lines 1188–1189). -/
def spinCoerce : Option Int → Int
  | none => 1
  | some n => if n == 0 then 1 else n

/-- `inp["*"] = ["xyzfile", v["charge"], v["spin"], "init.xyz"]`
(line 1191). -/
def starList (v : Values) : List Item :=
  [some "xyzfile", v.charge.map toString,
   some (toString (spinCoerce v.spin)), some "init.xyz"]

/-- Lines 1193–1197: the `UKS`/`UHF` keyword when unrestricted. -/
def uksToks (v : Values) : List Item :=
  if truthyB v.unrestricted then
    if v.theory == some "DFTB" || v.theory == some "DFT" then [some "UKS"]
    else [some "UHF"]
  else []

/-- Lines 1204–1211: the `ri` keyword.  `"gga" in v["dft:family"]` raises
`TypeError` when the family is `None` (the surrounding guard is
`v["theory"] == "DFT"`). -/
def riStage (v : Values) : Option (Option String) :=
  if v.theory != some "DFTB" then
    if !truthyB v.ri && !truthyB v.dlpno then some (some "NoRI")
    else if v.theory == some "DFT" then
      match v.dftFamily with
      | none => none
      | some fam =>
        if pyIn "gga" fam then some (some "RI")
        else some (if truthyS v.riHf && v.riHf != some "Auto" then v.riHf
                   else none)
    else some (if truthyS v.riHf && v.riHf != some "Auto" then v.riHf
               else none)
  else some none

/-- `ri in {"RI", "RIJONX", "RIJDX", "RIJCOSX"}` (line 1216). -/
def useAuxjOf (ri : Option String) : Bool :=
  ri == some "RI" || ri == some "RIJONX" || ri == some "RIJDX" ||
  ri == some "RIJCOSX"

/-- `ri == "RIJK"` (line 1218). -/
def useAuxjkOf (ri : Option String) : Bool := ri == some "RIJK"

/-- Lines 1221–1225: dispatch the theory string; for DFT a composite key
`f"dft:{v['dft:family']}"` is looked up in the values dict, raising
`KeyError` for any family outside the eight known ones (or `None`). -/
def theoryStage (v : Values) : Option (Option String) :=
  if v.theory == some "DFTB" then some v.dftbHamiltonian
  else if v.theory == some "DFT" then
    match v.dftFamily with
    | some "lda" => some v.dftLda
    | some "gga" => some v.dftGga
    | some "meta-gga" => some v.dftMetaGga
    | some "hybrid" => some v.dftHybrid
    | some "rs-hybrid" => some v.dftRsHybrid
    | some "meta-hybrid" => some v.dftMetaHybrid
    | some "double-hybrid" => some v.dftDoubleHybrid
    | some "rs-double-hybrid" => some v.dftRsDoubleHybrid
    | _ => none
  else some v.theory

/-- Lines 1227–1235: the `DLPNO-`/`RI-` prefix and the correlation-fitting
flag `use_auxc`.  String concatenation with a `None` theory raises. -/
def dlpnoStage (v : Values) (ri th : Option String) :
    Option (Option String × Bool) :=
  let cond : Option Bool :=
    if th == some "MP2" || th == some "CCSD" then some true
    else if v.theory == some "DFT" then
      match v.dftFamily with
      | some fam => some (pyIn "double-hybrid" fam)
      | none => none
    else some false
  match cond with
  | none => none
  | some c =>
    if c then
      if truthyB v.dlpno then
        match th with
        | some t => some (some ("DLPNO-" ++ t), true)
        | none => none
      else if truthyS ri && ri != some "NoRI" then
        match th with
        | some t => some (some ("RI-" ++ t), true)
        | none => none
      else some (th, false)
    else some (th, false)

/-- Lines 1237–1239: the `(T)` suffix for CCSD with perturbative triples. -/
def triplesStage (v : Values) (th : Option String) : Option (Option String) :=
  if v.theory == some "CCSD" then
    if truthyB v.triplesCorrection then
      match th with
      | some t => some (some (t ++ "(T)"))
      | none => none
    else some th
  else some th

/-- Lines 1241–1254: whether numerical frequencies are forced. -/
def numfreqStage (v : Values) (ri : Option String) : Option Bool :=
  if truthyS v.relativity then some true
  else if ri == some "RIJK" then some true
  else if v.theory == some "DFTB" then some true
  else if v.theory == some "DFT" then
    match v.dftFamily with
    | some fam => some (pyIn "meta-gga" fam || pyIn "double-hybrid" fam)
    | none => none
  else some false

/-- Lines 1263–1264: the primary basis keyword, looked up at the composite
key `f"basis:{v['basis:family']}"`; a hidden family (the string becomes
`"basis:None"`) or an unknown one raises `KeyError`. -/
def basisStage (v : Values) : Option (List Item) :=
  if v.theory != some "DFTB" then
    match v.basisFamily with
    | some "def2" => some [v.basisDef2]
    | some "cc" => some [v.basisCc]
    | some "pople" => some [v.basisPople]
    | _ => none
  else some []

/-- Python `set.add`: append when not already present. -/
def setAdd (s : List String) (x : String) : List String :=
  if x ∈ s then s else s ++ [x]

/-- The cc bases that have a `/JK` fitting partner
(`{f"{prefix}cc-pV{n}Z" for n in {"T","Q",5} for prefix in {"","aug-"}}`). -/
def jkCcSet : List String :=
  ["cc-pVTZ", "cc-pVQZ", "cc-pV5Z", "aug-cc-pVTZ", "aug-cc-pVQZ",
   "aug-cc-pV5Z"]

/-- The def2 bases that have a `/C` fitting partner. -/
def cDef2Set : List String :=
  ["def2-SVP", "def2-TZVP", "def2-TZVPP", "def2-QZVPP"]

/-- The cc bases that have a `/C` fitting partner. -/
def cCcSet : List String :=
  ["cc-pVDZ", "cc-pVTZ", "cc-pVQZ", "cc-pV5Z", "cc-pV6Z", "aug-cc-pVDZ",
   "aug-cc-pVTZ", "aug-cc-pVQZ", "aug-cc-pV5Z", "aug-cc-pV6Z"]

/-- Python `x in s` for an optional string against a set of strings
(`None in s` is `False`). -/
def optMem (o : Option String) (l : List String) : Bool :=
  match o with
  | some s => s ∈ l
  | none => false

/-- Lines 1268–1318: the auxiliary-basis requirement resolution.  Each of
the three requirements (`use_auxj`, `use_auxjk`, `use_auxc`) adds its
resolved fitting basis to the set `auxbas`, falling back to the generic
`"AutoAux"` whenever no exact entry exists for the primary basis. -/
def auxSet (useAuxj useAuxjk useAuxc : Bool)
    (basisFamily basisDef2 basisCc relativity : Option String) :
    List String :=
  let s1 :=
    if useAuxj then
      if basisFamily == some "def2" then
        if !truthyS relativity then setAdd [] "def2/J" else setAdd [] "SARC/J"
      else setAdd [] "AutoAux"
    else []
  let s2 :=
    if useAuxjk then
      if basisFamily == some "def2" then setAdd s1 "def2/JK"
      else if basisFamily == some "cc" then
        if optMem basisCc jkCcSet then setAdd s1 (pyStrOpt basisCc ++ "/JK")
        else setAdd s1 "AutoAux"
      else setAdd s1 "AutoAux"
    else s1
  if useAuxc then
    if basisFamily == some "def2" then
      if optMem basisDef2 cDef2Set then setAdd s2 (pyStrOpt basisDef2 ++ "/C")
      else setAdd s2 "AutoAux"
    else if basisFamily == some "cc" then
      if optMem basisCc cCcSet then setAdd s2 (pyStrOpt basisCc ++ "/C")
      else setAdd s2 "AutoAux"
    else setAdd s2 "AutoAux"
  else s2

/-- The ascending string order used by Python's `sorted`. -/
def strLe (a b : String) : Bool := !(decide (b < a))

/-- Insert into a sorted list. -/
def insertSorted (x : String) : List String → List String
  | [] => [x]
  | y :: t => if strLe x y then x :: y :: t else y :: insertSorted x t

/-- `sorted` on a list of strings (insertion sort; the inputs are
duplicate-free sets, so this agrees with Python's `sorted`). -/
def pySorted : List String → List String
  | [] => []
  | x :: t => insertSorted x (pySorted t)

/-- Lines 1320–1323: the dominant-wildcard emission — when `"AutoAux"` was
selected for any requirement it preempts every other auxiliary basis,
otherwise the whole set is emitted sorted. -/
def auxEmit (s : List String) : List String :=
  if "AutoAux" ∈ s then ["AutoAux"] else pySorted s

/-- Lines 1325–1326: the frozen-core keyword for MP2/CCSD. -/
def frozenToks (v : Values) : List Item :=
  if v.theory == some "MP2" || v.theory == some "CCSD" then [v.frozenCore]
  else []

/-- Lines 1330–1334: the textual task rewriting (`Opt ↦ Opt NumGrad`,
`Freq ↦ NumFreq`); the membership test `"Opt" in task` raises `TypeError`
on a `None` task, but only when the corresponding flag is set. -/
def taskStage (task : Option String) (numgrad numfreq : Bool) :
    Option (Option String) :=
  let t1 : Option (Option String) :=
    if numgrad then
      match task with
      | none => none
      | some t =>
        some (some (if pyIn "Opt" t then pyReplace t "Opt" "Opt NumGrad"
                    else t))
    else some task
  match t1 with
  | none => none
  | some tv =>
    if numfreq then
      match tv with
      | none => none
      | some t =>
        some (some (if pyIn "Freq" t then pyReplace t "Freq" "NumFreq" else t))
    else some tv

/-- Line 1339: `int(v["memory"] / v["nprocs"])`; both operands are positive
in the schema domains, so float truncation coincides with `Int.tdiv`.
`None` operands raise `TypeError` and a zero divisor `ZeroDivisionError`. -/
def maxcoreStage (mem np : Option Int) : Option Int :=
  match mem, np with
  | some m, some n => if n == 0 then none else some (m.tdiv n)
  | _, _ => none

/-- Lines 1341–1352: solvent resolution.  `v["solvation:model"].lower()`
raises on `None`; the composite key `f"solvation:{model}"` must be one of
the three solvent fields; `.lower()` on a `None` solvent raises.  Returns
(keyword-line tokens, `%cpcm` section items). -/
def solvStage (v : Values) : Option (List Item × List Item) :=
  if truthyB v.solvation then
    let sm : Option String :=
      if v.theory == some "DFTB" then some "gbsa"
      else match v.solvationModel with
        | some s => some (pyLower s)
        | none => none
    match sm with
    | none => none
    | some m =>
      let sf : Option (Option String) :=
        if m == "gbsa" then some v.solvationGbsa
        else if m == "cpcm" then some v.solvationCpcm
        else if m == "smd" then some v.solvationSmd
        else none
      match sf with
      | none => none
      | some none => none
      | some (some solvent0) =>
        let solvent := pyLower solvent0
        if m == "cpcm" then some ([some ("CPCM(" ++ solvent ++ ")")], [])
        else some ([], [some "smd true",
                        some ("smdsolvent \"" ++ solvent ++ "\"")])
  else some ([], [])

/-- The SCF-convergence dict of line 1359–1365 (note: no key `0`). -/
def scfLookup (n : Int) : Option String :=
  if n == -1 then some "LooseSCF"
  else if n == 1 then some "TightSCF"
  else if n == 2 then some "TightSCF"
  else if n == 3 then some "VeryTightSCF"
  else if n == 4 then some "ExtremeSCF"
  else none

/-- Lines 1357–1366: the SCF-convergence keyword, emitted only for a truthy
(nonzero) quality; an unknown ordinal raises `KeyError`. -/
def scfTokens (q : Option Int) : Option (List String) :=
  if truthyI q then
    match q with
    | some n => (scfLookup n).map (fun t => [t])
    | none => none
  else some []

/-- Lines 1368–1382: the DFT integration-grid keywords. `None + 3` raises
`TypeError`. -/
def gridTokens (isDft tddft : Bool) (q : Option Int) :
    Option (List String) :=
  if isDft then
    match q with
    | none => none
    | some n =>
      let ng := n + 3 + (if tddft then 1 else 0)
      some (("Grid" ++ toString ng) ::
        (if ng > 6 then ["NoFinalGrid"]
         else ["FinalGrid" ++ toString (ng + 1)]))
  else some []

/-- The increment applied to `n_gridx` (lines 1385–1394): `+3` when
`"Opt" in task and "DLPNO-MP2" in theory` (raising `TypeError` on a `None`
operand, with Python's short-circuiting), else `+1` for TD-DFT.  It does
not depend on the quality ordinal. -/
def gridxIncr (tddft : Bool) (task theoryStr : Option String) :
    Option Int :=
  match task with
  | none => none
  | some t =>
    if pyIn "Opt" t then
      match theoryStr with
      | some th => some (if pyIn "DLPNO-MP2" th then 3
                         else if tddft then 1 else 0)
      | none => none
    else some (if tddft then 1 else 0)

/-- Lines 1383–1396: the COSX-grid keyword for RIJCOSX; emitted only when
the incremented ordinal exceeds 3, capped at 9. -/
def gridxTokens (isRijcosx tddft : Bool) (task theoryStr : Option String)
    (q : Option Int) : Option (List String) :=
  if isRijcosx then
    match q with
    | none => none
    | some n =>
      match gridxIncr tddft task theoryStr with
      | none => none
      | some i =>
        let ngx := n + 3 + i
        some (if ngx > 3 then ["GridX" ++ toString (min ngx 9)] else [])
  else some []

/-- The three numeric-quality token families at ordinal `q`, with the other
settings fixed: the SCF-convergence token, the `Grid`/`FinalGrid` pair and
the `GridX` token, concatenated in emission order. -/
def qualityTokens (isDft tddft isRijcosx : Bool)
    (task theoryStr : Option String) (q : Int) : Option (List String) :=
  match scfTokens (some q), gridTokens isDft tddft (some q),
        gridxTokens isRijcosx tddft task theoryStr (some q) with
  | some a, some b, some c => some (a ++ b ++ c)
  | _, _, _ => none

/-- Lines 1398–1407: output-verbosity keywords and `NBO`. -/
def outputToks (v : Values) : List Item :=
  (if v.outputLevel != some "SmallPrint" then [v.outputLevel] else [])
  ++ (if truthyB v.outputBasis && v.outputLevel != some "LargePrint" then
        [some "PrintBasis"] else [])
  ++ (if truthyB v.outputMos && v.outputLevel != some "LargePrint" then
        [some "PrintMOs"]
      else if !truthyB v.outputMos && v.outputLevel == some "LargePrint" then
        [some "NoPrintMOs"]
      else [])
  ++ (if truthyB v.nbo then [some "NBO"] else [])

/-- Python `str` of a schema float: all spinbox floats are two-digit
decimals (denominator dividing 100), for which `repr` prints the shortest
decimal form.  Computed from the numerator and denominator directly. -/
def ratStr (q : Rat) : String :=
  let sgn := if q.num < 0 then "-" else ""
  let n := q.num.natAbs
  let ip := n / q.den
  let c := n * 100 / q.den % 100
  if c == 0 then sgn ++ toString ip ++ ".0"
  else if c % 10 == 0 then sgn ++ toString ip ++ "." ++ toString (c / 10)
  else if c < 10 then sgn ++ toString ip ++ ".0" ++ toString c
  else sgn ++ toString ip ++ "." ++ toString c

/-- `str` of an optional float. -/
def ratStrOpt : Option Rat → String
  | none => "None"
  | some q => ratStr q

/-- Lines 1418–1422: the trust-radius item. `trust_radius = -trust`,
negated again when the update flag is true; the dict lookup
`{True: -1, False: 1}[v["geom:update_trust"]]` raises `KeyError` on a
`None` flag. -/
def trustToks (gt : Option Rat) (gs : Option String) (gu : Option Bool) :
    Option (List Item) :=
  if truthyQ gt then
    match gt with
    | some t =>
      if gs != some "step qn" then
        match gu with
        | some b => some [some ("trust " ++ ratStr (if b then t else -t))]
        | none => none
      else some [some ("trust " ++ ratStr (-t))]
    | none => none
  else some []

/-- Lines 1424–1429: the initial-Hessian items of the `%geom` section. -/
def hessToks (ih : Option String) (numfreq : Bool) : List Item :=
  if truthyS ih then
    [ih]
    ++ (if ih == some "inhess read" then [some "inhessname \"freq.hess\""]
        else [])
    ++ (if ih == some "calc_hess true" && numfreq then [some "numhess true"]
        else [])
  else []

/-- Lines 1412–1413: the `%scf` section. -/
def scfSec (v : Values) : List Item :=
  if truthyS v.scfMaxiter && v.scfMaxiter != some "Auto" then
    [some ("maxiter " ++ pyStrOpt v.scfMaxiter)]
  else []

/-- Lines 1414–1429: the `%geom` section (maxiter, the always-appended
step item, trust and Hessian items). -/
def geomSecOf (v : Values) (numfreq : Bool) (trust : List Item) :
    List Item :=
  (if truthyI v.geomMaxiter then [some ("maxiter " ++ pyStrI v.geomMaxiter)]
   else [])
  ++ [v.geomStep] ++ trust ++ hessToks v.initialHessian numfreq

/-- Lines 1431–1434: the `%freq` section. -/
def freqSec (v : Values) : List Item :=
  (if truthyB v.freqRestart then [some "restart true"] else [])
  ++ (if truthyQ v.freqScaling && v.freqScaling != some 1 then
        [some ("scalfreq " ++ ratStrOpt v.freqScaling)]
      else [])

/-- Lines 1436–1437: the `%pal` section; `None > 1` raises `TypeError`
(unreachable: the earlier maxcore division already raised). -/
def palStage (np : Option Int) : Option (List Item) :=
  match np with
  | some n => some (if n > 1 then [some ("nprocs " ++ toString n)] else [])
  | none => none

/-- Lines 1439–1446: the `%tddft` section. -/
def tddftSec (v : Values) : List Item :=
  if truthyB v.excitedStates then
    if v.excitedStatesMethod == some "TD-DFT" then
      [some ("nroots " ++ pyStrI v.tddftNroots),
       some ("maxdim " ++ pyStrI v.tddftMaxdim)]
      ++ (if !truthyB v.tddftTda then [some "tda false"] else [])
      ++ (if truthyB v.tddftNto then [some "donto true"] else [])
    else []
  else []

/-- The `"!"` keyword line, in the exact order the source appends to it
(UKS/UHF, theory, dispersion, relativity, basis, ri, auxiliary bases,
frozen core, uco, task, CPCM, TightOpt, quality tokens, output, NBO). -/
def bangList (v : Values) (th3 : Option String) (basisToks : List Item)
    (ri : Option String) (aux : List String) (task2 : Option String)
    (solvBang : List Item) (scfT gridT gridxT : List String) : List Item :=
  uksToks v ++ [th3, v.dispersion, v.relativity] ++ basisToks ++ [ri]
  ++ (if ri != some "NoRI" then aux.map some else [])
  ++ frozenToks v ++ [v.uco]
  ++ (if task2 == some "Energy" then [] else [task2])
  ++ solvBang
  ++ (if truthyB v.geomTight then [some "TightOpt"] else [])
  ++ scfT.map some ++ gridT.map some ++ gridxT.map some
  ++ outputToks v

/-- The assembled document, with keys in the insertion order of the
source's first accesses: `*`, `!`, `maxcore`, then the conditional `cpcm`,
`#`, `scf`, the unconditional `geom`, and the conditional `freq`, `pal`,
`tddft`. -/
def docAssemble (v : Values) (bang : List Item) (mc : Int)
    (cpcmS : List Item) (numfreq : Bool) (trust pal : List Item) :
    ORCAInput :=
  [("*", starList v), ("!", bang), ("maxcore", [some (toString mc)])]
  ++ (if cpcmS.isEmpty then [] else [("cpcm", cpcmS)])
  ++ (if truthyS v.shortDescription then [("#", [v.shortDescription])]
      else [])
  ++ (if (scfSec v).isEmpty then [] else [("scf", scfSec v)])
  ++ [("geom", geomSecOf v numfreq trust)]
  ++ (if (freqSec v).isEmpty then [] else [("freq", freqSec v)])
  ++ (if pal.isEmpty then [] else [("pal", pal)])
  ++ (if (tddftSec v).isEmpty then [] else [("tddft", tddftSec v)])

/-- The results of all the fallible steps of `update_widgets`, in source
order. -/
structure Stages where
  ri : Option String
  th3 : Option String
  useAuxc : Bool
  numfreq : Bool
  basisToks : List Item
  task2 : Option String
  mc : Int
  solvBang : List Item
  cpcmSec : List Item
  scfT : List String
  gridT : List String
  gridxT : List String
  trust : List Item
  pal : List Item

/-- The fallible steps of `update_widgets`, sequenced in the order of the
source's fallible expressions; a `none` models the exception propagating
out of the handler. -/
def stages (v : Values) : Option Stages := do
  let ri ← riStage v
  let th ← theoryStage v
  let p ← dlpnoStage v ri th
  let th3 ← triplesStage v p.1
  let numfreq ← numfreqStage v ri
  let basisToks ← basisStage v
  let task2 ← taskStage v.task (v.theory == some "CCSD") numfreq
  let mc ← maxcoreStage v.memory v.nprocs
  let solv ← solvStage v
  let scfT ← scfTokens v.numericalQuality
  let gridT ← gridTokens (v.theory == some "DFT")
    (v.excitedStatesMethod == some "TD-DFT") v.numericalQuality
  let gridxT ← gridxTokens (ri == some "RIJCOSX")
    (v.excitedStatesMethod == some "TD-DFT") task2 th3 v.numericalQuality
  let trust ← trustToks v.geomTrust v.geomStep v.geomUpdateTrust
  let pal ← palStage v.nprocs
  pure ⟨ri, th3, p.2, numfreq, basisToks, task2, mc, solv.1, solv.2,
    scfT, gridT, gridxT, trust, pal⟩

/-- `InputGUI.update_widgets` on the output of `get_values`: the document
it feeds to `ORCAInput.generate`, or `none` when the Python code would
raise. -/
def updateWidgets (v : Values) : Option ORCAInput :=
  (stages v).map fun s =>
    docAssemble v
      (bangList v s.th3 s.basisToks s.ri
        (auxEmit (auxSet (useAuxjOf s.ri) (useAuxjkOf s.ri) s.useAuxc
          v.basisFamily v.basisDef2 v.basisCc v.relativity))
        s.task2 s.solvBang s.scfT s.gridT s.gridxT)
      s.mc s.cpcmSec s.numfreq s.trust s.pal

/-! ### Document-model lemmas -/

theorem lookupKey_some_mem_keys {m : ORCAInput} {k : String}
    {v : List Item} (h : lookupKey m k = some v) : k ∈ keysOf m := by
  unfold lookupKey at h
  rcases hf : m.find? (fun p => p.1 == k) with _ | p
  · rw [hf] at h; exact absurd h (by simp)
  · have hp := List.find?_some hf
    have hm := List.mem_of_find?_eq_some hf
    have : p.1 = k := by simpa using hp
    exact this ▸ List.mem_map_of_mem Prod.fst hm

theorem mem_keys_getitem_self (m : ORCAInput) (k : String) :
    k ∈ keysOf (getitem m k).2 := by
  unfold getitem
  rcases h : lookupKey m k with _ | v
  · simp [keysOf]
  · simpa using lookupKey_some_mem_keys h

theorem mem_keys_getitem_mono {m : ORCAInput} {j : String}
    (k : String) (h : j ∈ keysOf m) : j ∈ keysOf (getitem m k).2 := by
  unfold getitem
  rcases lookupKey m k with _ | v
  · simp only [keysOf, List.map_append]
    exact List.mem_append_left _ h
  · exact h

theorem mem_getitem_mono {m : ORCAInput} {e : String × List Item}
    (k : String) (h : e ∈ m) : e ∈ (getitem m k).2 := by
  unfold getitem
  rcases lookupKey m k with _ | v
  · exact List.mem_append_left _ h
  · exact h

/-- `generateLines` ends in the state after the four implicit reads. -/
theorem generateLines_snd (m : ORCAInput) :
    (generateLines m).2 =
      (getitem (getitem (getitem (getitem m "#").2 "!").2 "maxcore").2
        "*").2 := rfl

/-- C10. For every document and key, `ORCAInput.__getitem__` never raises:
an absent key is inserted with a fresh empty list which is returned, so the
read enlarges the mapping and appends the key to the iteration order; and
`generate` itself reads the special inline keys, so `"#"`, `"!"`,
`"maxcore"` and `"*"` are all present after any serialization. -/
theorem C10_getitem_inserts (m : ORCAInput) (k : String)
    (habs : lookupKey m k = none) :
    (getitem m k).1 = [] ∧
    (getitem m k).2 = m ++ [(k, [])] ∧
    keysOf (getitem m k).2 = keysOf m ++ [k] ∧
    (∀ m2 : ORCAInput,
      "#" ∈ keysOf (generate m2).2 ∧ "!" ∈ keysOf (generate m2).2 ∧
      "maxcore" ∈ keysOf (generate m2).2 ∧ "*" ∈ keysOf (generate m2).2) := by
  refine ⟨?_, ?_, ?_, ?_⟩
  · unfold getitem; rw [habs]
  · unfold getitem; rw [habs]
  · unfold getitem; rw [habs]; simp [keysOf]
  · intro m2
    have hsnd : (generate m2).2 = (generateLines m2).2 := rfl
    rw [hsnd, generateLines_snd]
    refine ⟨?_, ?_, ?_, ?_⟩
    · exact mem_keys_getitem_mono _ (mem_keys_getitem_mono _
        (mem_keys_getitem_mono _ (mem_keys_getitem_self m2 "#")))
    · exact mem_keys_getitem_mono _ (mem_keys_getitem_mono _
        (mem_keys_getitem_self _ "!"))
    · exact mem_keys_getitem_mono _ (mem_keys_getitem_self _ "maxcore")
    · exact mem_keys_getitem_self _ "*"

/-- Witness for C10 at a concrete document and key. -/
theorem C10_getitem_inserts_witness :
    (getitem [("geom", [some "x"])] "scf").1 = [] ∧
    (getitem [("geom", [some "x"])] "scf").2 =
      [("geom", [some "x"])] ++ [("scf", [])] ∧
    keysOf (getitem [("geom", [some "x"])] "scf").2 = ["geom"] ++ ["scf"] ∧
    (∀ m2 : ORCAInput,
      "#" ∈ keysOf (generate m2).2 ∧ "!" ∈ keysOf (generate m2).2 ∧
      "maxcore" ∈ keysOf (generate m2).2 ∧ "*" ∈ keysOf (generate m2).2) :=
  C10_getitem_inserts [("geom", [some "x"])] "scf" (by decide)

/-- C9 fails as stated on the empty named section: all (zero) of its
entries are null, yet `generate` emits both the `%geom` header and the
`end` closer for it. -/
theorem C9_counterexample :
    (∀ i ∈ ([] : List Item), i = none) ∧
    "\n%geom" ∈ (generateLines [("geom", ([] : List Item))]).1 ∧
    "end" ∈ (generateLines [("geom", ([] : List Item))]).1 := by decide

/-- C9 (amended): a named non-inline section with at least one entry, all
of them null, is skipped entirely; a section with a non-null entry emits
its `%key` header, one line per non-null entry in order, and the `end`
closer (and each of those lines appears in the generated output of any
document containing the section); but an *empty* section emits the header
immediately followed by the closer. -/
theorem C9_amended (k : String) (v : List Item)
    (hk1 : k ∉ inliners) (hk2 : k ≠ "#") :
    ((v ≠ [] ∧ ∀ i ∈ v, i = none) → sectionBlock k v = []) ∧
    ((∃ i ∈ v, i ≠ none) →
      sectionBlock k v =
        ("\n%" ++ k) ::
          v.filterMap (fun i => i.map (fun s => " " ++ s)) ++ ["end"]) ∧
    (v = [] → sectionBlock k v = ["\n%" ++ k, "end"]) ∧
    (∀ m : ORCAInput, (k, v) ∈ m →
      ∀ s ∈ sectionBlock k v, s ∈ (generateLines m).1) := by
  have hek : (k == "#") = false := by
    simpa using hk2
  refine ⟨?_, ?_, ?_, ?_⟩
  · rintro ⟨hne, hall⟩
    have : (v ≠ [] ∧ v.all fun i => i == none) := by
      refine ⟨hne, ?_⟩
      rw [List.all_eq_true]
      intro i hi
      simpa using hall i hi
    simp [sectionBlock, this]
  · rintro ⟨i, hi, hine⟩
    have h1 : ¬((v ≠ [] ∧ v.all fun i => i == none) ∨ k ∈ inliners ∨
        k == "#") := by
      rintro (⟨-, hall⟩ | h | h)
      · rw [List.all_eq_true] at hall
        exact hine (by simpa using hall i hi)
      · exact hk1 h
      · exact hk2 (by simpa using h)
    unfold sectionBlock
    rw [if_neg h1]
  · intro hv
    subst hv
    have h1 : ¬((([] : List Item) ≠ [] ∧
        ([] : List Item).all fun i => i == none) ∨ k ∈ inliners ∨
        k == "#") := by
      rintro (⟨h, -⟩ | h | h)
      · exact h rfl
      · exact hk1 h
      · exact hk2 (by simpa using h)
    unfold sectionBlock
    rw [if_neg h1]
    rfl
  · intro m hm s hs
    have hm4 : (k, v) ∈ (generateLines m).2 := by
      rw [generateLines_snd]
      exact mem_getitem_mono _ (mem_getitem_mono _
        (mem_getitem_mono _ (mem_getitem_mono _ hm)))
    have : s ∈ ((generateLines m).2).flatMap
        (fun p => sectionBlock p.1 p.2) :=
      List.mem_flatMap.mpr ⟨(k, v), hm4, hs⟩
    show s ∈ (generateLines m).1
    unfold generateLines
    refine List.mem_append_right _ ?_
    exact this

/-- Witness for C9 (amended) at a concrete section. -/
theorem C9_amended_witness :
    "geom" ∉ inliners ∧ "geom" ≠ "#" ∧
    sectionBlock "geom" [none, none] = [] :=
  ⟨by decide, by decide,
    (C9_amended "geom" [none, none] (by decide) (by decide)).1
      ⟨by decide, by decide⟩⟩

/-! ### Hidden-field nulling and translation fallback -/

/-- C2. For every field whose derived `visible` flag is false when
`get_values` runs, the emitted value is null, regardless of the stored raw
value and of any translation mapping. -/
theorem C2_hidden_field_null (f : Field) (h : f.visible = false) :
    emitValue f = .ok none := by
  simp [emitValue, h]

/-- Witness for C2: a hidden field with a stored value and a translator
still emits null. -/
theorem C2_hidden_field_null_witness :
    emitValue ⟨false, true, some (.vStr "B3LYP"),
      some (.vStr "BLYP"),
      some [(some (.vStr "BLYP"), some (.vStr "blyp"))]⟩ = .ok none :=
  C2_hidden_field_null _ rfl

/-- The `values` translation dicts of the InputGUI schema together with
each field's resolved default, as `(translator, default)` pairs.  Dict
comprehensions (`task`, `dft:family`, `basis:family`) and the identity dict
(`ri:hf`) are kept as comprehensions over their key lists. -/
def taskDictEntry :
    List (Option Value × Option Value) × Option Value :=
  (taskKeys.map (fun s => (some (.vStr s), some (.vStr (pyReplace s "+" " ")))),
   some (.vStr "Opt+Freq"))

def orcinusDictFields :
    List (List (Option Value × Option Value) × Option Value) :=
  [taskDictEntry,
   ([(some (.vBool false), none), (some (.vBool true), some (.vStr "UCO"))],
    some (.vBool false)),
   ([(some (.vBool true), none),
     (some (.vBool false), some (.vStr "NoFrozenCore"))],
    some (.vBool true)),
   ([(some (.vStr "GFN1-xTB"), some (.vStr "XTB1")),
     (some (.vStr "GFN2-xTB"), some (.vStr "XTB2"))],
    some (.vStr "GFN2-xTB")),
   (dftFamilyKeys.map (fun s => (some (.vStr s), some (.vStr (pyLower s)))),
    some (.vStr "GGA")),
   (basisFamilyKeys.map (fun s => (some (.vStr s), some (.vStr (pyLower s)))),
    some (.vStr "def2")),
   (basisDef2Keys.map (fun s => (some (.vStr s), some (.vStr (basisDef2Tr s)))),
    some (.vStr "TZP")),
   (basisCcKeys.map (fun s => (some (.vStr s), some (.vStr (basisCcTr s)))),
    some (.vStr "TZP")),
   (basisPopleKeys.map
      (fun s => (some (.vStr s), some (.vStr (basisPopleTr s)))),
    some (.vStr "TZP")),
   (numericalQualityKeys.map
      (fun s => (some (.vStr s), some (.vInt (numericalQualityTr s)))),
    some (.vStr "Good")),
   (riHfKeys.map (fun s => (some (.vStr s), some (.vStr s))),
    some (.vStr "RIJCOSX")),
   (solvationCpcmKeys.map
      (fun s => (some (.vStr s), some (.vStr (solvationCpcmTr s)))),
    some (.vStr "Water")),
   (solvationSmdKeys.map
      (fun s => (some (.vStr s), some (.vStr (solvationSmdTr s)))),
    some (.vStr "Water")),
   (solvationGbsaKeys.map
      (fun s => (some (.vStr s), some (.vStr (solvationGbsaTr s)))),
    some (.vStr "Water")),
   (geomStepKeys.map
      (fun s => (some (.vStr s), (geomStepTr s).map (.vStr ·))),
    some (.vStr "Auto")),
   (initialHessianKeys.map
      (fun s => (some (.vStr s), some (.vStr (initialHessianTr s)))),
    some (.vStr "Swart")),
   (outputLevelKeys.map
      (fun s => (some (.vStr s), some (.vStr (outputLevelTr s)))),
    some (.vStr "Small"))]

/-- Every dict-translated field of the schema has its default among the
dict's keys, so the `KeyError` fallback of `get_values` always succeeds. -/
theorem orcinusDictFields_default_mapped :
    ∀ p ∈ orcinusDictFields, (dlookup p.1 p.2).isSome = true := by decide

/-- C3. For every dict-translated field of the InputGUI schema, a stored
display value that is not a key of the translation dict makes `get_values`
return the translation of the field's default instead, and the lookup
failure never propagates to the caller. -/
theorem C3_translation_fallback
    (p : List (Option Value × Option Value) × Option Value)
    (hp : p ∈ orcinusDictFields) (f : Field)
    (hvis : f.visible = true) (hok : f.getOk = true)
    (htr : f.translator = some p.1) (hd : f.fieldDefault = p.2)
    (hmiss : dlookup p.1 (scrubNone f.raw) = none) :
    ∃ w, dlookup p.1 p.2 = some w ∧ emitValue f = .ok (scrubNone w) := by
  have hs := orcinusDictFields_default_mapped p hp
  rcases hw : dlookup p.1 p.2 with _ | w
  · rw [hw] at hs; exact absurd hs (by simp)
  refine ⟨w, rfl, ?_⟩
  simp [emitValue, hvis, hok, htr, hd, hmiss, hw]

/-- Witness for C3: the `task` field with an unmapped stored value falls
back to the translation of the default `"Opt+Freq"`. -/
theorem C3_translation_fallback_witness :
    ∃ w, dlookup taskDictEntry.1 taskDictEntry.2 = some w ∧
      emitValue ⟨true, true, some (.vStr "Bogus"), taskDictEntry.2,
        some taskDictEntry.1⟩ = .ok (scrubNone w) :=
  C3_translation_fallback taskDictEntry
    (by unfold orcinusDictFields; exact List.mem_cons_self _ _)
    _ rfl rfl rfl rfl (by decide)

/-! ### Kind and default inference -/

/-- C7 fails as stated on the schema's own `relativity` descriptor (domain
`[None, "DKH", "ZORA"]`, no explicit default): its kind is inferred from
the first *non-null* entry, but its default resolves to the literal first
entry `None`, not to the first non-null entry `"DKH"` the claim
predicts. -/
theorem C7_counterexample :
    inferType ⟨none, none,
      some [none, some (.vStr "DKH"), some (.vStr "ZORA")]⟩ = .ok .kStr ∧
    inferDefault ⟨none, none,
      some [none, some (.vStr "DKH"), some (.vStr "ZORA")]⟩ .kStr =
      some none ∧
    firstNonNull [none, some (.vStr "DKH"), some (.vStr "ZORA")] =
      some (.vStr "DKH") ∧
    (none : Option Value) ≠ some (.vStr "DKH") :=
  ⟨rfl, rfl, rfl, by decide⟩

/-- C7 (amended): the resolved default is the explicit `"default"` entry if
the key is present (even a null one); otherwise the *literal first* entry
of the domain when a domain is given (even when that entry is null);
otherwise the zero value of the resolved kind. -/
theorem C7_amended (d : Descriptor) (k : Kind) :
    (∀ dv, d.defaultVal = some dv → inferDefault d k = some dv) ∧
    (d.defaultVal = none → ∀ v vs, d.values = some (v :: vs) →
      inferDefault d k = some v) ∧
    (d.defaultVal = none → d.values = none →
      inferDefault d k = some (some (kindZero k))) := by
  refine ⟨?_, ?_, ?_⟩
  · intro dv h
    simp [inferDefault, h]
  · intro h v vs hv
    simp [inferDefault, h, hv]
  · intro h hv
    simp [inferDefault, h, hv]

/-- Witness for C7 (amended) on the `relativity`-shaped descriptor: the
resolved default is the literal first (null) domain entry. -/
theorem C7_amended_witness :
    inferDefault ⟨none, none,
      some [none, some (.vStr "DKH"), some (.vStr "ZORA")]⟩ .kStr =
      some none :=
  (C7_amended ⟨none, none,
      some [none, some (.vStr "DKH"), some (.vStr "ZORA")]⟩ .kStr).2.1
    rfl none [some (.vStr "DKH"), some (.vStr "ZORA")] rfl

/-- C8. The resolved kind is the explicit `"type"` when given; else the
runtime type of a present non-null default; else the type of the first
non-null domain entry; and a descriptor with no explicit type, no non-null
default and no domain raises the fatal configuration error whose payload is
the offending descriptor itself. -/
theorem C8_kind_inference (d : Descriptor) :
    (∀ k, d.ty = some k → inferType d = .ok k) ∧
    (d.ty = none → ∀ v, d.defaultVal = some (some v) →
      inferType d = .ok (typeOf v)) ∧
    (d.ty = none → (d.defaultVal = none ∨ d.defaultVal = some none) →
      ∀ vs v, d.values = some vs → firstNonNull vs = some v →
        inferType d = .ok (typeOf v)) ∧
    (d.ty = none → (d.defaultVal = none ∨ d.defaultVal = some none) →
      d.values = none → inferType d = .error (.cannotInferType d)) := by
  refine ⟨?_, ?_, ?_, ?_⟩
  · intro k h
    simp [inferType, h]
  · intro ht v hd
    simp [inferType, ht, hd]
  · intro ht hd vs v hvs hv
    rcases hd with hd | hd <;> simp [inferType, ht, hd, hvs, hv]
  · intro ht hd hvs
    rcases hd with hd | hd <;> simp [inferType, ht, hd, hvs]

/-- Witness for C8: a descriptor with nothing to infer from raises the
error carrying the descriptor. -/
theorem C8_kind_inference_witness :
    inferType ⟨none, some none, none⟩ =
      .error (.cannotInferType ⟨none, some none, none⟩) :=
  (C8_kind_inference ⟨none, some none, none⟩).2.2.2 rfl (Or.inr rfl) rfl

/-! ### Auxiliary-basis emission -/

theorem mem_insertSorted (x t : String) (l : List String) :
    t ∈ insertSorted x l ↔ t = x ∨ t ∈ l := by
  induction l with
  | nil => simp [insertSorted]
  | cons y ys ih =>
    rcases hxy : strLe x y with _ | _
    · rw [insertSorted, hxy]
      simp only [Bool.false_eq_true, if_false, List.mem_cons, ih]
      tauto
    · rw [insertSorted, hxy]
      simp only [if_true, List.mem_cons]

theorem mem_pySorted (t : String) (l : List String) :
    t ∈ pySorted l ↔ t ∈ l := by
  induction l with
  | nil => simp [pySorted]
  | cons y ys ih =>
    rw [pySorted, mem_insertSorted]
    simp [ih]

/-- C4. Auxiliary-basis emission: whenever any of the three fitting-basis
requirements resolved to the generic `"AutoAux"` fallback, the emitted
token list is exactly `["AutoAux"]` — the wildcard appears once and
preempts every other auxiliary-basis token; when no requirement fell back,
every resolved token (and nothing else) is emitted. -/
theorem C4_autoaux_dominant (j jk c : Bool) (bf bd bc rel : Option String) :
    ("AutoAux" ∈ auxSet j jk c bf bd bc rel →
      auxEmit (auxSet j jk c bf bd bc rel) = ["AutoAux"] ∧
      (auxEmit (auxSet j jk c bf bd bc rel)).count "AutoAux" = 1) ∧
    ("AutoAux" ∉ auxSet j jk c bf bd bc rel →
      "AutoAux" ∉ auxEmit (auxSet j jk c bf bd bc rel) ∧
      ∀ t, t ∈ auxEmit (auxSet j jk c bf bd bc rel) ↔
        t ∈ auxSet j jk c bf bd bc rel) := by
  constructor
  · intro h
    have he : auxEmit (auxSet j jk c bf bd bc rel) = ["AutoAux"] := by
      simp [auxEmit, h]
    exact ⟨he, by rw [he]; rfl⟩
  · intro h
    have he : auxEmit (auxSet j jk c bf bd bc rel) =
        pySorted (auxSet j jk c bf bd bc rel) := by
      simp [auxEmit, h]
    rw [he]
    exact ⟨fun hm => h ((mem_pySorted _ _).mp hm), fun t => mem_pySorted t _⟩

/-- Witness for C4: a Coulomb-fitting requirement against the cc family
falls back to `AutoAux`, and that is the entire emission even though an
exchange-fitting token was also resolved. -/
theorem C4_autoaux_dominant_witness :
    "AutoAux" ∈ auxSet true true false (some "cc") none (some "cc-pVTZ")
      none ∧
    auxEmit (auxSet true true false (some "cc") none (some "cc-pVTZ") none) =
      ["AutoAux"] ∧
    (auxEmit (auxSet true true false (some "cc") none (some "cc-pVTZ")
      none)).count "AutoAux" = 1 :=
  ⟨by decide,
   ((C4_autoaux_dominant true true false (some "cc") none (some "cc-pVTZ")
      none).1 (by decide)).1,
   ((C4_autoaux_dominant true true false (some "cc") none (some "cc-pVTZ")
      none).1 (by decide)).2⟩

/-! ### Numeric-quality tiers -/

/-- The ordinal domain of `numerical:quality` (the dict's values). -/
def qualityDomain : List Int := [-1, 0, 1, 2, 3, 4]

/-- C5 fails as stated: tier `-1` emits the SCF-convergence token
`LooseSCF`, but tier `0` is falsy and emits no quality token at all, so the
higher tier's token set is not a superset of the lower tier's. -/
theorem C5_counterexample :
    (-1 : Int) ∈ qualityDomain ∧ (0 : Int) ∈ qualityDomain ∧
    (-1 : Int) < 0 ∧
    qualityTokens false false false none none (-1) = some ["LooseSCF"] ∧
    qualityTokens false false false none none 0 = some [] ∧
    ¬(["LooseSCF"] ⊆ ([] : List String)) := by decide

/-- Strip `p` from the front of `l` when it is a prefix. -/
def stripFront (p l : List Char) : Option (List Char) :=
  match p, l with
  | [], rest => some rest
  | _ :: _, [] => none
  | c :: ps, d :: ls => if c == d then stripFront ps ls else none

/-- The value of a decimal digit. -/
def digitVal (c : Char) : Option Nat :=
  if c == '0' then some 0 else if c == '1' then some 1
  else if c == '2' then some 2 else if c == '3' then some 3
  else if c == '4' then some 4 else if c == '5' then some 5
  else if c == '6' then some 6 else if c == '7' then some 7
  else if c == '8' then some 8 else if c == '9' then some 9 else none

/-- Parse a nonempty all-digit run. -/
def digitsToNat (cs : List Char) : Option Nat :=
  cs.foldl (fun acc c =>
    match acc, digitVal c with
    | some n, some d => some (n * 10 + d)
    | _, _ => none) (if cs.isEmpty then none else some 0)

/-- The numeric suffix of a token with the given literal stem (so
`natSuffix "Grid" "Grid5" = some 5` while `natSuffix "Grid" "GridX5"`
is `none`). -/
def natSuffix (pre t : String) : Option Int :=
  match stripFront pre.data t.data with
  | none => none
  | some rest => (digitsToNat rest).map Int.ofNat

/-- The index carried by the first token of a family in a token list. -/
def levIdx (pre : String) (ts : List String) : Option Int :=
  (ts.filterMap (natSuffix pre)).head?

/-- Strictness rank of the SCF-convergence token present in a token list
(`LooseSCF < ` no token ` < TightSCF < VeryTightSCF < ExtremeSCF`). -/
def scfLevel (ts : List String) : Nat :=
  if "LooseSCF" ∈ ts then 1
  else if "TightSCF" ∈ ts then 3
  else if "VeryTightSCF" ∈ ts then 4
  else if "ExtremeSCF" ∈ ts then 5
  else 2

/-- Presence-and-index monotonicity for one token family: a token present
at the lower tier must be present at the higher tier with an index at least
as large. -/
def bOptMono : Option Int → Option Int → Bool
  | none, _ => true
  | some _, none => false
  | some n, some m => n ≤ m

/-- Index monotonicity whenever the family is present at both tiers. -/
def bFinalMono : Option Int → Option Int → Bool
  | some n, some m => n ≤ m
  | _, _ => true

/-- All the per-family monotonicity checks between the token lists of two
tiers (vacuously true when either tier's emission raised). -/
def qmono : Option (List String) → Option (List String) → Bool
  | some t1, some t2 =>
    decide (scfLevel t1 ≤ scfLevel t2) &&
    bOptMono (levIdx "Grid" t1) (levIdx "Grid" t2) &&
    bOptMono (levIdx "GridX" t1) (levIdx "GridX" t2) &&
    bFinalMono (levIdx "FinalGrid" t1) (levIdx "FinalGrid" t2) &&
    (!decide ("NoFinalGrid" ∈ t1) || decide ("NoFinalGrid" ∈ t2))
  | _, _ => true

/-- The quality-token families with the COSX increment fixed in advance
(`qualityTokens` is definitionally this at `gridxIncr`). -/
def qualityTokensWith (isDft tddft isRijcosx : Bool) (i : Option Int)
    (q : Int) : Option (List String) :=
  match scfTokens (some q), gridTokens isDft tddft (some q),
        (if isRijcosx then
          match i with
          | none => none
          | some j =>
            let ngx := q + 3 + j
            some (if ngx > 3 then ["GridX" ++ toString (min ngx 9)] else [])
         else some []) with
  | some a, some b, some c => some (a ++ b ++ c)
  | _, _, _ => none

theorem qualityTokens_eq_with (isDft tddft isRijcosx : Bool)
    (task th : Option String) (q : Int) :
    qualityTokens isDft tddft isRijcosx task th q =
      qualityTokensWith isDft tddft isRijcosx (gridxIncr tddft task th) q :=
  rfl

theorem gridxIncr_cases (tddft : Bool) (task th : Option String) :
    gridxIncr tddft task th = none ∨ gridxIncr tddft task th = some 0 ∨
    gridxIncr tddft task th = some 1 ∨ gridxIncr tddft task th = some 3 := by
  rcases task with _ | t
  · exact Or.inl rfl
  rcases hOpt : pyIn "Opt" t with _ | _
  · cases tddft
    · refine Or.inr (Or.inl ?_)
      simp [gridxIncr, hOpt]
    · refine Or.inr (Or.inr (Or.inl ?_))
      simp [gridxIncr, hOpt]
  · rcases th with _ | s
    · refine Or.inl ?_
      simp [gridxIncr, hOpt]
    rcases hD : pyIn "DLPNO-MP2" s with _ | _
    · cases tddft
      · refine Or.inr (Or.inl ?_)
        simp [gridxIncr, hOpt, hD]
      · refine Or.inr (Or.inr (Or.inl ?_))
        simp [gridxIncr, hOpt, hD]
    · refine Or.inr (Or.inr (Or.inr ?_))
      simp [gridxIncr, hOpt, hD]

theorem qmono_with_incr :
    ∀ i ∈ [(none : Option Int), some 0, some 1, some 3],
    ∀ isDft ∈ [false, true], ∀ tddft ∈ [false, true],
    ∀ isRijcosx ∈ [false, true],
    ∀ q1 ∈ qualityDomain, ∀ q2 ∈ qualityDomain, q1 < q2 →
      qmono (qualityTokensWith isDft tddft isRijcosx i q1)
        (qualityTokensWith isDft tddft isRijcosx i q2) = true := by decide

/-- C5 (amended): between two quality tiers `q1 < q2` with all other
settings held equal, each precision/grid-density token family is emitted at
an equal or stricter level at the higher tier: the SCF-convergence rank
never decreases (tier 0 emits no SCF token, which ranks between `LooseSCF`
and `TightSCF`), the `Grid` index never decreases, a `GridX` token present
at the lower tier persists with an index at least as large, the `FinalGrid`
index never decreases while both tiers emit one, and the top tier's
`NoFinalGrid` replacement persists.  (The literal token-set-superset claim
fails; see the counterexample.) -/
theorem C5_amended (isDft tddft isRijcosx : Bool) (task th : Option String)
    (q1 q2 : Int) (h1 : q1 ∈ qualityDomain) (h2 : q2 ∈ qualityDomain)
    (hlt : q1 < q2) :
    qmono (qualityTokens isDft tddft isRijcosx task th q1)
      (qualityTokens isDft tddft isRijcosx task th q2) = true := by
  rw [qualityTokens_eq_with, qualityTokens_eq_with]
  have hb : ∀ b : Bool, b ∈ [false, true] := by decide
  rcases gridxIncr_cases tddft task th with hi | hi | hi | hi <;> rw [hi]
  · exact qmono_with_incr none (by decide) isDft (hb isDft) tddft (hb tddft)
      isRijcosx (hb isRijcosx) q1 h1 q2 h2 hlt
  · exact qmono_with_incr (some 0) (by decide) isDft (hb isDft) tddft
      (hb tddft) isRijcosx (hb isRijcosx) q1 h1 q2 h2 hlt
  · exact qmono_with_incr (some 1) (by decide) isDft (hb isDft) tddft
      (hb tddft) isRijcosx (hb isRijcosx) q1 h1 q2 h2 hlt
  · exact qmono_with_incr (some 3) (by decide) isDft (hb isDft) tddft
      (hb tddft) isRijcosx (hb isRijcosx) q1 h1 q2 h2 hlt

/-- Witness for C5 (amended) at the DFT tiers 1 < 2 with TD-DFT and
RIJCOSX active. -/
theorem C5_amended_witness :
    qmono (qualityTokens true true true (some "Opt Freq") (some "B3LYP") 1)
      (qualityTokens true true true (some "Opt Freq") (some "B3LYP") 2) =
      true :=
  C5_amended true true true (some "Opt Freq") (some "B3LYP") 1 2
    (by decide) (by decide) (by decide)

/-! ### The geometry-specification line -/

theorem lookupKey_append_of_some {m : ORCAInput} {j : String}
    {v : List Item} (l : ORCAInput) (h : lookupKey m j = some v) :
    lookupKey (m ++ l) j = some v := by
  unfold lookupKey at h ⊢
  rw [List.find?_append]
  rcases hf : m.find? (fun p => p.1 == j) with _ | p
  · rw [hf] at h; exact absurd h (by simp)
  · rw [hf] at h ⊢
    simpa [Option.or] using h

theorem lookupKey_getitem_of_some (k : String) {m : ORCAInput} {j : String}
    {v : List Item} (h : lookupKey m j = some v) :
    lookupKey (getitem m k).2 j = some v := by
  unfold getitem
  rcases lookupKey m k with _ | w
  · exact lookupKey_append_of_some _ h
  · exact h

theorem getitem_fst_of_lookup {m : ORCAInput} {k : String} {v : List Item}
    (h : lookupKey m k = some v) : (getitem m k).1 = v := by
  unfold getitem
  rw [h]

/-- The first component of `generateLines`, written with projections
(definitional by product eta). -/
theorem generateLines_fst (m : ORCAInput) :
    (generateLines m).1 =
      (getitem m "#").1.map (fun i => "# " ++ pyStrOpt i) ++
      [inlinerTag "!" ++ " " ++
         joinNonNull (getitem (getitem m "#").2 "!").1,
       inlinerTag "maxcore" ++ " " ++
         joinNonNull (getitem (getitem (getitem m "#").2 "!").2
           "maxcore").1,
       inlinerTag "*" ++ " " ++
         joinNonNull (getitem (getitem (getitem (getitem m "#").2 "!").2
           "maxcore").2 "*").1] ++
      ((generateLines m).2.flatMap fun p => sectionBlock p.1 p.2) := rfl

/-- The inline geometry line produced by `generate` for the stored `"*"`
section. -/
theorem star_line_mem (m : ORCAInput) (xs : List Item)
    (h : lookupKey m "*" = some xs) :
    (inlinerTag "*" ++ " " ++ joinNonNull xs) ∈ (generateLines m).1 := by
  have h3 : lookupKey (getitem (getitem (getitem m "#").2 "!").2
      "maxcore").2 "*" = some xs :=
    lookupKey_getitem_of_some _ (lookupKey_getitem_of_some _
      (lookupKey_getitem_of_some _ h))
  have hst := getitem_fst_of_lookup h3
  rw [generateLines_fst, hst]
  refine List.mem_append_left _ (List.mem_append_right _ ?_)
  exact List.mem_cons_of_mem _ (List.mem_cons_of_mem _
    (List.mem_cons_self _ _))

/-- C6. The generated document's `"*"` section is exactly
`["xyzfile", charge, spin, "init.xyz"]` in that order, where a falsy (null
or zero) spin multiplicity has been coerced to 1; consequently the
serialized geometry line is `* xyzfile <charge> <spin> init.xyz`. -/
theorem C6_geometry_line (v : Values) (d : ORCAInput)
    (h : updateWidgets v = some d) :
    lookupKey d "*" = some [some "xyzfile", v.charge.map toString,
      some (toString (spinCoerce v.spin)), some "init.xyz"] ∧
    ((v.spin = none ∨ v.spin = some 0) → spinCoerce v.spin = 1) ∧
    (∀ c : Int, v.charge = some c →
      (inlinerTag "*" ++ " " ++ String.intercalate " "
        ["xyzfile", toString c, toString (spinCoerce v.spin),
         "init.xyz"]) ∈ (generateLines d).1) := by
  rw [updateWidgets] at h
  rcases hs : stages v with _ | s
  · rw [hs, Option.map_none'] at h
    exact Option.noConfusion h
  rw [hs, Option.map_some'] at h
  have hd2 : d = docAssemble v
      (bangList v s.th3 s.basisToks s.ri
        (auxEmit (auxSet (useAuxjOf s.ri) (useAuxjkOf s.ri) s.useAuxc
          v.basisFamily v.basisDef2 v.basisCc v.relativity))
        s.task2 s.solvBang s.scfT s.gridT s.gridxT)
      s.mc s.cpcmSec s.numfreq s.trust s.pal := by
    simpa using h.symm
  subst hd2
  have hstar : lookupKey (docAssemble v
      (bangList v s.th3 s.basisToks s.ri
        (auxEmit (auxSet (useAuxjOf s.ri) (useAuxjkOf s.ri) s.useAuxc
          v.basisFamily v.basisDef2 v.basisCc v.relativity))
        s.task2 s.solvBang s.scfT s.gridT s.gridxT)
      s.mc s.cpcmSec s.numfreq s.trust s.pal) "*" = some (starList v) := by
    unfold docAssemble lookupKey
    simp [List.find?]
  refine ⟨hstar, ?_, ?_⟩
  · rintro (hs | hs) <;> rw [hs] <;> rfl
  · intro c hc
    have hj : joinNonNull (starList v) = String.intercalate " "
        ["xyzfile", toString c, toString (spinCoerce v.spin),
         "init.xyz"] := by
      unfold starList joinNonNull
      rw [hc]
      rfl
    have := star_line_mem _ _ hstar
    rw [hj] at this
    exact this

/-- A fully in-domain Hartree–Fock answer set. -/
def answersHF : Answers where
  shortDescription := ""
  task := "Opt+Freq"
  charge := 0
  spin := 1
  unrestricted := false
  uco := false
  theory := "HF"
  frozenCore := true
  triplesCorrection := true
  dftbHamiltonian := "GFN2-xTB"
  dftFamily := "GGA"
  dftLda := "VWN5"
  dftGga := "BLYP"
  dftHybrid := "B3LYP"
  dftMetaGga := "SCANfunc"
  dftMetaHybrid := "TPSSh"
  dftRsHybrid := "wB97X"
  dftDoubleHybrid := "B2PLYP"
  dftRsDoubleHybrid := "wB2PLYP"
  dispersion := "D4"
  basisFamily := "def2"
  basisDef2 := "TZP"
  basisCc := "TZP"
  basisPople := "TZP"
  numericalQuality := "Good"
  dlpno := true
  ri := true
  riHf := "RIJCOSX"
  nprocs := 2
  memory := 12000
  solvation := true
  solvationModel := "SMD"
  solvationCpcm := "Water"
  solvationSmd := "Water"
  solvationGbsa := "Water"
  relativity := "None"
  outputLevel := "Small"
  outputMos := true
  outputBasis := true
  nbo := false
  scfMaxiter := "Auto"
  geomStep := "Auto"
  geomTrust := ⟨1, 5, by decide, by decide⟩
  geomUpdateTrust := true
  geomMaxiter := 30
  geomTight := false
  initialHessian := "Swart"
  freqRestart := false
  freqScaling := ⟨1, 1, by decide, by decide⟩
  excitedStates := false
  excitedStatesMethod := "TD-DFT"
  tddftNroots := 30
  tddftTda := true
  tddftNto := false
  tddftMaxdim := 10

/-- The document the generator produces for `answersHF`. -/
def docHF : ORCAInput := (updateWidgets (getValues answersHF)).getD []

/-- Witness for C6 at the Hartree–Fock answer set. -/
theorem C6_geometry_line_witness :
    lookupKey docHF "*" = some [some "xyzfile",
      (getValues answersHF).charge.map toString,
      some (toString (spinCoerce (getValues answersHF).spin)),
      some "init.xyz"] :=
  (C6_geometry_line (getValues answersHF) docHF rfl).1

/-! ### Totality of the generator -/

theorem gvTheory_eq_some {a : Answers} {s : String} (h : a.theory = s)
    (hs : (s == "None") = false) : (getValues a).theory = some s := by
  show strScrub a.theory = some s
  rw [h]
  unfold strScrub
  rw [hs]
  rfl

theorem gvTheory_beq_false {a : Answers} {s : String} (h : a.theory ≠ s) :
    ((getValues a).theory == some s) = false := by
  show (strScrub a.theory == some s) = false
  unfold strScrub
  rcases hn : a.theory == "None" with _ | _
  · simp only [Bool.false_eq_true, if_false]
    simpa using h
  · simp only [if_true]
    rfl

theorem gvDftFamily_of_dft {a : Answers} (h : a.theory = "DFT") :
    (getValues a).dftFamily = some (dftFamilyTr a.dftFamily) := by
  show (if visDftFamily a then some (dftFamilyTr a.dftFamily) else none) = _
  rw [if_pos]
  show (a.theory == "DFT") = true
  simp [h]

theorem riStage_some (a : Answers) :
    ∃ r, riStage (getValues a) = some r := by
  unfold riStage
  by_cases hdft : a.theory = "DFT"
  · rw [gvDftFamily_of_dft hdft]
    repeat' split
    all_goals try exact ⟨_, rfl⟩
    all_goals simp_all
  · rw [gvTheory_beq_false hdft]
    repeat' split
    all_goals try exact ⟨_, rfl⟩
    all_goals simp_all

/-! Projection equations for `getValues` (all definitional). -/

theorem gv_theory (a : Answers) :
    (getValues a).theory = strScrub a.theory := rfl

theorem gv_task (a : Answers) :
    (getValues a).task = some (taskTr a.task) := rfl

theorem gv_dftFamily (a : Answers) :
    (getValues a).dftFamily =
      if visDftFamily a then some (dftFamilyTr a.dftFamily) else none := rfl

theorem gv_dftbHamiltonian (a : Answers) :
    (getValues a).dftbHamiltonian =
      if visDftbHamiltonian a then
        some (dftbHamiltonianTr a.dftbHamiltonian)
      else none := rfl

theorem gv_dftLda (a : Answers) :
    (getValues a).dftLda =
      if visDftFunctional a "LDA" then strScrub a.dftLda else none := rfl

theorem gv_dftGga (a : Answers) :
    (getValues a).dftGga =
      if visDftFunctional a "GGA" then strScrub a.dftGga else none := rfl

theorem gv_dftHybrid (a : Answers) :
    (getValues a).dftHybrid =
      if visDftFunctional a "Hybrid" then strScrub a.dftHybrid
      else none := rfl

theorem gv_dftMetaGga (a : Answers) :
    (getValues a).dftMetaGga =
      if visDftFunctional a "meta-GGA" then strScrub a.dftMetaGga
      else none := rfl

theorem gv_dftMetaHybrid (a : Answers) :
    (getValues a).dftMetaHybrid =
      if visDftFunctional a "meta-Hybrid" then strScrub a.dftMetaHybrid
      else none := rfl

theorem gv_dftRsHybrid (a : Answers) :
    (getValues a).dftRsHybrid =
      if visDftFunctional a "RS-Hybrid" then strScrub a.dftRsHybrid
      else none := rfl

theorem gv_dftDoubleHybrid (a : Answers) :
    (getValues a).dftDoubleHybrid =
      if visDftFunctional a "Double-Hybrid" then
        strScrub a.dftDoubleHybrid
      else none := rfl

theorem gv_dftRsDoubleHybrid (a : Answers) :
    (getValues a).dftRsDoubleHybrid =
      if visDftFunctional a "RS-Double-Hybrid" then
        strScrub a.dftRsDoubleHybrid
      else none := rfl

theorem gv_basisFamily (a : Answers) :
    (getValues a).basisFamily =
      if visBasisFamily a then some (basisFamilyTr a.basisFamily)
      else none := rfl

theorem gv_numericalQuality (a : Answers) :
    (getValues a).numericalQuality =
      if visNumericalQuality a then
        some (numericalQualityTr a.numericalQuality)
      else none := rfl

theorem gv_riHf (a : Answers) :
    (getValues a).riHf =
      if visRiHf a then some (riHfTr a.riHf) else none := rfl

theorem gv_memory (a : Answers) :
    (getValues a).memory = some a.memory := rfl

theorem gv_nprocs (a : Answers) :
    (getValues a).nprocs = some a.nprocs := rfl

theorem gv_solvation (a : Answers) :
    (getValues a).solvation = some a.solvation := rfl

theorem gv_solvationModel (a : Answers) :
    (getValues a).solvationModel =
      if visSolvationModel a then strScrub a.solvationModel else none := rfl

theorem gv_solvationCpcm (a : Answers) :
    (getValues a).solvationCpcm =
      if visSolvationCpcm a then some (solvationCpcmTr a.solvationCpcm)
      else none := rfl

theorem gv_solvationSmd (a : Answers) :
    (getValues a).solvationSmd =
      if visSolvationSmd a then some (solvationSmdTr a.solvationSmd)
      else none := rfl

theorem gv_solvationGbsa (a : Answers) :
    (getValues a).solvationGbsa =
      if visSolvationGbsa a then some (solvationGbsaTr a.solvationGbsa)
      else none := rfl

theorem gv_geomStep (a : Answers) :
    (getValues a).geomStep =
      if visOpt a then geomStepTr a.geomStep else none := rfl

theorem gv_geomTrust (a : Answers) :
    (getValues a).geomTrust =
      if visOpt a then some a.geomTrust else none := rfl

theorem gv_geomUpdateTrust (a : Answers) :
    (getValues a).geomUpdateTrust =
      if visGeomUpdateTrust a then some a.geomUpdateTrust else none := rfl

theorem strScrub_mem_ne {s : String} {l : List String} (hm : s ∈ l)
    (hn : "None" ∉ l) : strScrub s = some s := by
  have hne : s ≠ "None" := fun he => hn (he ▸ hm)
  simp [strScrub, hne]

theorem theoryStage_some (a : Answers) (h4 : a.theory ∈ theoryKeys)
    (h6 : a.dftFamily ∈ dftFamilyKeys) (h7 : a.dftLda ∈ dftLdaKeys)
    (h8 : a.dftGga ∈ dftGgaKeys) (h9 : a.dftHybrid ∈ dftHybridKeys)
    (h10 : a.dftMetaGga ∈ dftMetaGgaKeys)
    (h11 : a.dftMetaHybrid ∈ dftMetaHybridKeys)
    (h12 : a.dftRsHybrid ∈ dftRsHybridKeys)
    (h13 : a.dftDoubleHybrid ∈ dftDoubleHybridKeys)
    (h14 : a.dftRsDoubleHybrid ∈ dftRsDoubleHybridKeys) :
    ∃ t, theoryStage (getValues a) = some (some t) := by
  unfold theoryStage
  by_cases hb : a.theory = "DFTB"
  · rw [gvTheory_eq_some hb (by decide)]
    refine ⟨dftbHamiltonianTr a.dftbHamiltonian, ?_⟩
    simp [gv_dftbHamiltonian, visDftbHamiltonian, hb]
  by_cases hdft : a.theory = "DFT"
  · rw [gvTheory_eq_some hdft (by decide), gv_dftFamily,
      if_pos (show visDftFamily a = true by simp [visDftFamily, hdft])]
    simp only [show (((some "DFT" : Option String)) == some "DFTB") = false
      from by decide, Bool.false_eq_true, if_false, beq_self_eq_true,
      if_true]
    simp only [dftFamilyKeys, List.mem_cons, List.not_mem_nil, or_false]
      at h6
    rcases h6 with hf | hf | hf | hf | hf | hf | hf | hf <;> rw [hf]
    · rw [show dftFamilyTr "LDA" = "lda" from by decide]
      refine ⟨a.dftLda, ?_⟩
      show some ((getValues a).dftLda) = some (some a.dftLda)
      rw [gv_dftLda, if_pos (show visDftFunctional a "LDA" = true by
        simp [visDftFunctional, hdft, hf]), strScrub_mem_ne h7 (by decide)]
    · rw [show dftFamilyTr "GGA" = "gga" from by decide]
      refine ⟨a.dftGga, ?_⟩
      show some ((getValues a).dftGga) = some (some a.dftGga)
      rw [gv_dftGga, if_pos (show visDftFunctional a "GGA" = true by
        simp [visDftFunctional, hdft, hf]), strScrub_mem_ne h8 (by decide)]
    · rw [show dftFamilyTr "meta-GGA" = "meta-gga" from by decide]
      refine ⟨a.dftMetaGga, ?_⟩
      show some ((getValues a).dftMetaGga) = some (some a.dftMetaGga)
      rw [gv_dftMetaGga, if_pos (show visDftFunctional a "meta-GGA" = true
        by simp [visDftFunctional, hdft, hf]),
        strScrub_mem_ne h10 (by decide)]
    · rw [show dftFamilyTr "Hybrid" = "hybrid" from by decide]
      refine ⟨a.dftHybrid, ?_⟩
      show some ((getValues a).dftHybrid) = some (some a.dftHybrid)
      rw [gv_dftHybrid, if_pos (show visDftFunctional a "Hybrid" = true by
        simp [visDftFunctional, hdft, hf]), strScrub_mem_ne h9 (by decide)]
    · rw [show dftFamilyTr "RS-Hybrid" = "rs-hybrid" from by decide]
      refine ⟨a.dftRsHybrid, ?_⟩
      show some ((getValues a).dftRsHybrid) = some (some a.dftRsHybrid)
      rw [gv_dftRsHybrid, if_pos (show visDftFunctional a "RS-Hybrid" =
        true by simp [visDftFunctional, hdft, hf]),
        strScrub_mem_ne h12 (by decide)]
    · rw [show dftFamilyTr "meta-Hybrid" = "meta-hybrid" from by decide]
      refine ⟨a.dftMetaHybrid, ?_⟩
      show some ((getValues a).dftMetaHybrid) = some (some a.dftMetaHybrid)
      rw [gv_dftMetaHybrid, if_pos (show visDftFunctional a "meta-Hybrid" =
        true by simp [visDftFunctional, hdft, hf]),
        strScrub_mem_ne h11 (by decide)]
    · rw [show dftFamilyTr "Double-Hybrid" = "double-hybrid" from by decide]
      refine ⟨a.dftDoubleHybrid, ?_⟩
      show some ((getValues a).dftDoubleHybrid) =
        some (some a.dftDoubleHybrid)
      rw [gv_dftDoubleHybrid, if_pos (show visDftFunctional a
        "Double-Hybrid" = true by simp [visDftFunctional, hdft, hf]),
        strScrub_mem_ne h13 (by decide)]
    · rw [show dftFamilyTr "RS-Double-Hybrid" = "rs-double-hybrid" from
        by decide]
      refine ⟨a.dftRsDoubleHybrid, ?_⟩
      show some ((getValues a).dftRsDoubleHybrid) =
        some (some a.dftRsDoubleHybrid)
      rw [gv_dftRsDoubleHybrid, if_pos (show visDftFunctional a
        "RS-Double-Hybrid" = true by simp [visDftFunctional, hdft, hf]),
        strScrub_mem_ne h14 (by decide)]
  · rw [gvTheory_beq_false hb, gvTheory_beq_false hdft]
    simp only [Bool.false_eq_true, if_false]
    exact ⟨a.theory, by rw [gv_theory, strScrub_mem_ne h4 (by decide)]⟩

theorem dlpnoStage_some (a : Answers) (r : Option String) (t : String) :
    ∃ u c, dlpnoStage (getValues a) r (some t) = some (some u, c) := by
  unfold dlpnoStage
  by_cases hdft : a.theory = "DFT"
  · rw [gvTheory_eq_some hdft (by decide), gv_dftFamily,
      if_pos (show visDftFamily a = true by simp [visDftFamily, hdft])]
    repeat' split
    all_goals try exact ⟨_, _, rfl⟩
    all_goals try simp_all
    all_goals
      (split <;> first
        | exact ⟨_, Or.inl rfl⟩
        | exact ⟨_, Or.inr rfl⟩)
  · rw [gvTheory_beq_false hdft]
    repeat' split
    all_goals try exact ⟨_, _, rfl⟩
    all_goals simp_all

theorem triplesStage_some (a : Answers) (t : String) :
    ∃ u, triplesStage (getValues a) (some t) = some (some u) := by
  unfold triplesStage
  repeat' split
  all_goals try exact ⟨_, rfl⟩
  all_goals simp_all

theorem numfreqStage_some (a : Answers) (r : Option String) :
    ∃ b, numfreqStage (getValues a) r = some b := by
  unfold numfreqStage
  by_cases hdft : a.theory = "DFT"
  · rw [gv_dftFamily,
      if_pos (show visDftFamily a = true by simp [visDftFamily, hdft])]
    repeat' split
    all_goals try exact ⟨_, rfl⟩
    all_goals simp_all
  · rw [gvTheory_beq_false hdft]
    repeat' split
    all_goals try exact ⟨_, rfl⟩
    all_goals simp_all

theorem basisStage_some (a : Answers) (h4 : a.theory ∈ theoryKeys)
    (h16 : a.basisFamily ∈ basisFamilyKeys) (hmm : a.theory ≠ "MM") :
    ∃ bk, basisStage (getValues a) = some bk := by
  unfold basisStage
  by_cases hb : a.theory = "DFTB"
  · rw [gvTheory_eq_some hb (by decide)]
    exact ⟨[], by simp⟩
  have hvis : visBasisFamily a = true := by
    simp only [theoryKeys, List.mem_cons, List.not_mem_nil, or_false] at h4
    rcases h4 with hf | hf | hf | hf | hf | hf
    · exact absurd hf hmm
    · simp [visBasisFamily, visTheory4, hf]
    · exact absurd hf hb
    · simp [visBasisFamily, visTheory4, hf]
    · simp [visBasisFamily, visTheory4, hf]
    · simp [visBasisFamily, visTheory4, hf]
  have hne : ((getValues a).theory != some "DFTB") = true := by
    rw [gv_theory]
    unfold strScrub
    rcases hn : a.theory == "None" with _ | _
    · simp only [Bool.false_eq_true, if_false]
      simpa using hb
    · simp only [if_true]
      rfl
  rw [hne, gv_basisFamily, if_pos hvis]
  simp only [basisFamilyKeys, List.mem_cons, List.not_mem_nil, or_false]
    at h16
  rcases h16 with hf | hf | hf <;> rw [hf]
  · rw [show basisFamilyTr "def2" = "def2" from by decide]
    exact ⟨_, rfl⟩
  · rw [show basisFamilyTr "cc" = "cc" from by decide]
    exact ⟨_, rfl⟩
  · rw [show basisFamilyTr "Pople" = "pople" from by decide]
    exact ⟨_, rfl⟩

theorem taskStage_some (a : Answers) (ng nf : Bool) :
    ∃ u, taskStage (getValues a).task ng nf = some (some u) := by
  rw [gv_task]
  cases ng <;> cases nf <;> exact ⟨_, rfl⟩

theorem maxcoreStage_some (a : Answers) (h22 : a.nprocs ∈ nprocsKeys) :
    ∃ m, maxcoreStage (getValues a).memory (getValues a).nprocs =
      some m := by
  rw [gv_memory, gv_nprocs]
  have hz : (a.nprocs == 0) = false := by
    have : ∀ x ∈ nprocsKeys, (x == 0) = false := by decide
    exact this _ h22
  refine ⟨a.memory.tdiv a.nprocs, ?_⟩
  show (if (a.nprocs == 0) = true then none
    else some (a.memory.tdiv a.nprocs)) = some (a.memory.tdiv a.nprocs)
  rw [hz]
  rfl

theorem solvStage_some (a : Answers)
    (h24 : a.solvationModel ∈ solvationModelKeys) :
    ∃ sv, solvStage (getValues a) = some sv := by
  unfold solvStage
  rcases hsol : a.solvation with _ | _
  · exact ⟨([], []), by rw [gv_solvation, hsol]; rfl⟩
  rw [gv_solvation, hsol]
  by_cases hb : a.theory = "DFTB"
  · rw [gvTheory_eq_some hb (by decide), gv_solvationGbsa,
      if_pos (show visSolvationGbsa a = true by
        simp [visSolvationGbsa, hsol, hb])]
    exact ⟨_, rfl⟩
  · have hne : ((getValues a).theory == some "DFTB") = false :=
      gvTheory_beq_false hb
    rw [hne, gv_solvationModel,
      if_pos (show visSolvationModel a = true by
        simp [visSolvationModel, hsol, hb])]
    simp only [solvationModelKeys, List.mem_cons, List.not_mem_nil,
      or_false] at h24
    rcases h24 with hf | hf <;> rw [hf]
    · rw [show strScrub "CPCM" = some "CPCM" from rfl, gv_solvationCpcm,
        if_pos (show visSolvationCpcm a = true by
          simp [visSolvationCpcm, hsol, hb, hf])]
      exact ⟨_, rfl⟩
    · rw [show strScrub "SMD" = some "SMD" from rfl, gv_solvationSmd,
        if_pos (show visSolvationSmd a = true by
          simp [visSolvationSmd, hsol, hb, hf])]
      exact ⟨_, rfl⟩

theorem scfTokens_stage_some (a : Answers)
    (h20 : a.numericalQuality ∈ numericalQualityKeys) :
    ∃ ts, scfTokens (getValues a).numericalQuality = some ts := by
  rw [gv_numericalQuality]
  by_cases hv : visNumericalQuality a = true
  · rw [if_pos hv]
    simp only [numericalQualityKeys, List.mem_cons, List.not_mem_nil,
      or_false] at h20
    rcases h20 with hf | hf | hf | hf | hf | hf <;> rw [hf] <;>
      exact ⟨_, rfl⟩
  · rw [if_neg hv]
    exact ⟨[], rfl⟩

theorem gridTokens_stage_some (a : Answers) (tddft : Bool) :
    ∃ ts, gridTokens ((getValues a).theory == some "DFT") tddft
      (getValues a).numericalQuality = some ts := by
  by_cases hdft : a.theory = "DFT"
  · rw [gvTheory_eq_some hdft (by decide), gv_numericalQuality,
      if_pos (show visNumericalQuality a = true by
        simp [visNumericalQuality, visTheory4, hdft])]
    exact ⟨_, rfl⟩
  · rw [gvTheory_beq_false hdft]
    exact ⟨[], rfl⟩

theorem riStage_rijcosx (a : Answers)
    (hr : riStage (getValues a) = some (some "RIJCOSX")) :
    visTheory4 a = true := by
  have hriHf : (getValues a).riHf = some "RIJCOSX" := by
    unfold riStage at hr
    repeat' split at hr
    all_goals simp_all
  rw [gv_riHf] at hriHf
  by_cases hv : visRiHf a = true
  · unfold visRiHf at hv
    simp only [Bool.and_eq_true, Bool.or_eq_true] at hv
    rcases hv.2 with ((h | h) | h) | h
    · simp [visTheory4, show a.theory = "HF" by simpa using h]
    · simp [visTheory4, show a.theory = "MP2" by simpa using h]
    · simp [visTheory4, show a.theory = "CCSD" by simpa using h]
    · simp [visTheory4, show a.theory = "DFT" by simpa using h.1]
  · rw [if_neg hv] at hriHf
    exact absurd hriHf (by simp)

theorem gridxTokens_stage_some (a : Answers) (r : Option String)
    (hr : riStage (getValues a) = some r) (tddft : Bool) (u t3 : String) :
    ∃ ts, gridxTokens (r == some "RIJCOSX") tddft (some u) (some t3)
      (getValues a).numericalQuality = some ts := by
  rcases hx : r == some "RIJCOSX" with _ | _
  · exact ⟨[], rfl⟩
  · have hre : r = some "RIJCOSX" := by simpa using hx
    have hvt := riStage_rijcosx a (hre ▸ hr)
    have hi : ∃ i, gridxIncr tddft (some u) (some t3) = some i := by
      cases hOpt : pyIn "Opt" u
      · exact ⟨(if tddft then 1 else 0), by simp [gridxIncr, hOpt]⟩
      · exact ⟨(if pyIn "DLPNO-MP2" t3 then 3 else if tddft then 1 else 0),
          by simp [gridxIncr, hOpt]⟩
    obtain ⟨i, hi⟩ := hi
    rw [gv_numericalQuality,
      if_pos (show visNumericalQuality a = true from hvt)]
    unfold gridxTokens
    simp only [hi]
    exact ⟨_, rfl⟩

theorem trustToks_stage_some (a : Answers) :
    ∃ ts, trustToks (getValues a).geomTrust (getValues a).geomStep
      (getValues a).geomUpdateTrust = some ts := by
  rw [gv_geomTrust, gv_geomStep, gv_geomUpdateTrust]
  by_cases hopt : visOpt a = true
  · rw [if_pos hopt, if_pos hopt]
    unfold trustToks
    rcases htr : truthyQ (some a.geomTrust) with _ | _
    · exact ⟨[], rfl⟩
    by_cases hqn : a.geomStep = "quasi-Newton"
    · rw [hqn]
      exact ⟨_, rfl⟩
    · have hne : (geomStepTr a.geomStep != some "step qn") = true := by
        unfold geomStepTr
        repeat' split
        all_goals first
          | decide
          | simp_all
      rw [hne,
        if_pos (show visGeomUpdateTrust a = true by
          simp only [visGeomUpdateTrust, Bool.and_eq_true]
          exact ⟨hopt, by simpa using hqn⟩)]
      exact ⟨_, rfl⟩
  · have hopt2 : visGeomUpdateTrust a = false := by
      unfold visGeomUpdateTrust
      unfold visOpt at hopt
      simp [hopt]
    rw [if_neg hopt, if_neg hopt, if_neg (by simp [hopt2])]
    exact ⟨[], rfl⟩

theorem palStage_some (a : Answers) :
    ∃ p, palStage (getValues a).nprocs = some p := by
  rw [gv_nprocs]
  exact ⟨_, rfl⟩

theorem isSome_bind_someH {α β : Type} {o : Option α} {x : α}
    {f : α → Option β} (h : o = some x) (hf : (f x).isSome = true) :
    (o >>= f).isSome = true := by
  subst h
  simpa using hf

/-- An answer set identical to `answersHF` except that the theory is the
molecular-mechanics choice `"MM"`, which is in the declared domain of the
theory field. -/
def answersMM : Answers := { answersHF with theory := "MM" }

/-- C1, counterexample: the claim says the generator is total over the full
cross-product of declared domains, but for the in-domain answer set that
selects `theory = "MM"` the pipeline aborts (the basis lookup key
`"basis:None"` has no entry in the rule table, raising `KeyError` in the
Python source), so no document is produced. -/
theorem C1_counterexample :
    inDomain answersMM = true ∧
      updateWidgets (getValues answersMM) = none :=
  ⟨by decide, rfl⟩

/-- C1, amended: for every combination of field values drawn from the
declared domains of the fields, except those selecting the
molecular-mechanics theory `"MM"`, the generator `updateWidgets` run on the
values returned by `getValues` produces a document without failing. -/
theorem C1_amended (a : Answers) (hdom : inDomain a = true)
    (hmm : a.theory ≠ "MM") :
    (updateWidgets (getValues a)).isSome = true := by
  simp only [inDomain, Bool.and_eq_true, and_assoc, decide_eq_true_eq]
    at hdom
  obtain ⟨h1, h2, h3, h4, h5, h6, h7, h8, h9, h10, h11, h12, h13, h14,
    h15, h16, h17, h18, h19, h20, h21, h22, h23, h24, h25, h26, h27, h28,
    h29, h30, h31, h32, h33, h34, h35, h36, h37, h38, h39, h40, h41, h42,
    h43, h44, h45, h46⟩ := hdom
  obtain ⟨r, hr⟩ := riStage_some a
  obtain ⟨t, ht⟩ := theoryStage_some a h6 h8 h9 h10 h11 h12 h13 h14 h15
    h16
  obtain ⟨t2, c2, hp⟩ := dlpnoStage_some a r t
  obtain ⟨t3, ht3⟩ := triplesStage_some a t2
  obtain ⟨nf, hnf⟩ := numfreqStage_some a r
  obtain ⟨bk, hbk⟩ := basisStage_some a h6 h18 hmm
  obtain ⟨u, hu⟩ := taskStage_some a ((getValues a).theory == some "CCSD")
    nf
  obtain ⟨mc, hmc⟩ := maxcoreStage_some a h24
  obtain ⟨sv, hsv⟩ := solvStage_some a h28
  obtain ⟨scfT, hscf⟩ := scfTokens_stage_some a h22
  obtain ⟨gridT, hgrid⟩ := gridTokens_stage_some a
    ((getValues a).excitedStatesMethod == some "TD-DFT")
  obtain ⟨gxT, hgx⟩ := gridxTokens_stage_some a r hr
    ((getValues a).excitedStatesMethod == some "TD-DFT") u t3
  obtain ⟨trust, htr⟩ := trustToks_stage_some a
  obtain ⟨pal, hpal⟩ := palStage_some a
  rw [updateWidgets, Option.isSome_map', stages]
  refine isSome_bind_someH hr ?_
  refine isSome_bind_someH ht ?_
  refine isSome_bind_someH hp ?_
  refine isSome_bind_someH ht3 ?_
  refine isSome_bind_someH hnf ?_
  refine isSome_bind_someH hbk ?_
  refine isSome_bind_someH hu ?_
  refine isSome_bind_someH hmc ?_
  refine isSome_bind_someH hsv ?_
  refine isSome_bind_someH hscf ?_
  refine isSome_bind_someH hgrid ?_
  refine isSome_bind_someH hgx ?_
  refine isSome_bind_someH htr ?_
  refine isSome_bind_someH hpal ?_
  rfl

/-- Witness for C1, amended: the concrete in-domain Hartree–Fock answer
set satisfies both hypotheses and the generator succeeds on it. -/
theorem C1_amended_witness :
    inDomain answersHF = true ∧
      (updateWidgets (getValues answersHF)).isSome = true :=
  ⟨by decide, C1_amended answersHF (by decide) (by decide)⟩

end Orcinus
